import Mathlib

/-!
Verification development for the videoml standard-library component runtime.

The embedding follows the TypeScript source: the prop decoder
(parseProps), the theme resolver (resolveTheme and readCssVar), the
render steps of the catalogued custom elements, the motion-bars timeline
binding lifecycle, and the fallback component registry.

Modelling conventions:
the host JSON.parse builtin is embedded as a fuel-based
recursive-descent parser over the JSON grammar; numbers are exact
rationals extended with signed infinities and a not-a-number element
(JsNum) where the coercion semantics of the host needs them; DOM
subtrees are finite trees of nodes carrying tag, text content and an
assigned style list; stateful lifecycle code is embedded as a step
function on an explicit state type.
-/

namespace VideoML

/-- JSON values as produced by the host JSON.parse. Numbers are modelled
as exact rationals rather than IEEE doubles; all arithmetic in this
development is exact. Object members are kept in insertion order and
property lookup takes the last binding of a key, matching host
assignment order when a key is duplicated. -/
inductive Json where
  | null
  | bool (b : Bool)
  | num (q : ℚ)
  | str (s : String)
  | arr (elems : List Json)
  | obj (members : List (String × Json))

/-- Whitespace skipping for the JSON grammar: space, tab, newline,
carriage return. -/
def skipWs : List Char → List Char
  | c :: cs => if c = ' ' ∨ c = '\t' ∨ c = '\n' ∨ c = '\r' then skipWs cs else c :: cs
  | [] => []

/-- Value of one hexadecimal digit, if the character is one. -/
def hexVal (c : Char) : Option Nat :=
  if '0' ≤ c ∧ c ≤ '9' then some (c.toNat - '0'.toNat)
  else if 'a' ≤ c ∧ c ≤ 'f' then some (c.toNat - 'a'.toNat + 10)
  else if 'A' ≤ c ∧ c ≤ 'F' then some (c.toNat - 'A'.toNat + 10)
  else none

/-- Body of a JSON string literal after the opening quote: plain
characters and the escape sequences of the JSON grammar. Raw control
characters below 0x20 are rejected, as in the host parser. A \u escape
naming a lone surrogate is outside the scalar values Lean characters can
carry and is replaced; no claim depends on that corner. -/
def parseStringBody : List Char → String → Option (String × List Char)
  | [], _ => none
  | '"' :: rest, acc => some (acc, rest)
  | '\\' :: '"' :: rest, acc => parseStringBody rest (acc.push '"')
  | '\\' :: '\\' :: rest, acc => parseStringBody rest (acc.push '\\')
  | '\\' :: '/' :: rest, acc => parseStringBody rest (acc.push '/')
  | '\\' :: 'b' :: rest, acc => parseStringBody rest (acc.push (Char.ofNat 8))
  | '\\' :: 'f' :: rest, acc => parseStringBody rest (acc.push (Char.ofNat 12))
  | '\\' :: 'n' :: rest, acc => parseStringBody rest (acc.push '\n')
  | '\\' :: 'r' :: rest, acc => parseStringBody rest (acc.push '\r')
  | '\\' :: 't' :: rest, acc => parseStringBody rest (acc.push '\t')
  | '\\' :: 'u' :: a :: b :: c :: d :: rest, acc =>
    match hexVal a, hexVal b, hexVal c, hexVal d with
    | some ha, some hb, some hc, some hd =>
      parseStringBody rest (acc.push (Char.ofNat (((ha * 16 + hb) * 16 + hc) * 16 + hd)))
    | _, _, _, _ => none
  | '\\' :: _, _ => none
  | c :: rest, acc => if c.toNat < 32 then none else parseStringBody rest (acc.push c)

/-- Consume a maximal run of decimal digits, appending them to the
accumulator. -/
def takeDigits : List Char → List Char → List Char × List Char
  | c :: cs, acc => if c.isDigit then takeDigits cs (acc ++ [c]) else (acc, c :: cs)
  | [], acc => (acc, [])

/-- Numeric value of a digit string. -/
def digitsToNat (cs : List Char) : Nat :=
  cs.foldl (fun n c => n * 10 + (c.toNat - '0'.toNat)) 0

/-- The rational with the given decimal mantissa digits, fraction length
and decimal exponent: digits scaled by ten to the power of the exponent
minus the fraction length, negated when the sign flag is set. Built with
mkRat and machine integer arithmetic so that it evaluates by kernel
reduction. -/
def scientificToRat (neg : Bool) (digits : Nat) (fracLen : Nat) (exp : Int) : ℚ :=
  let shift : Int := exp - fracLen
  let n : Int := if neg then -(digits : Int) else (digits : Int)
  if 0 ≤ shift then mkRat (n * ((10 : Nat) ^ shift.toNat : Nat)) 1
  else mkRat n ((10 : Nat) ^ (-shift).toNat)

/-- A JSON number literal: optional minus, an integer part that is
either 0 or starts with a nonzero digit, an optional fraction, an
optional exponent. Leading-zero forms, bare signs and bare dots are
rejected, as in the JSON grammar the host parser enforces. -/
def parseJsonNumber (cs : List Char) : Option (ℚ × List Char) :=
  let signed : Bool × List Char := match cs with
    | '-' :: r => (true, r)
    | _ => (false, cs)
  let neg := signed.1
  let body := signed.2
  let intPart : Option (List Char × List Char) := match body with
    | '0' :: r =>
      (match r with
       | c :: _ => if c.isDigit then none else some (['0'], r)
       | [] => some (['0'], []))
    | c :: r =>
      if c.isDigit ∧ c ≠ '0' then some (takeDigits r [c])
      else none
    | [] => none
  match intPart with
  | none => none
  | some (ids, rest1) =>
    let fracPart : Option (List Char × List Char) := match rest1 with
      | '.' :: r =>
        (match r with
         | c :: _ => if c.isDigit then some (takeDigits r []) else none
         | [] => none)
      | _ => some ([], rest1)
    match fracPart with
    | none => none
    | some (fds, rest2) =>
      let expPart : Option (Int × List Char) := match rest2 with
        | 'e' :: r | 'E' :: r =>
          (let esigned : Bool × List Char := match r with
             | '-' :: r2 => (true, r2)
             | '+' :: r2 => (false, r2)
             | _ => (false, r)
           match esigned.2 with
           | c :: _ =>
             if c.isDigit then
               let dr := takeDigits esigned.2 []
               some (if esigned.1 then -(digitsToNat dr.1 : Int) else (digitsToNat dr.1 : Int), dr.2)
             else none
           | [] => none)
        | _ => some (0, rest2)
      match expPart with
      | none => none
      | some (ep, rest3) =>
        some (scientificToRat neg (digitsToNat (ids ++ fds)) fds.length ep, rest3)

/-- Comma-separated array elements up to the closing bracket, with the
parser for one value passed in as a function. -/
def parseElemsWith (p : List Char → Option (Json × List Char)) :
    Nat → List Char → List Json → Option (List Json × List Char)
  | 0, _, _ => none
  | Nat.succ fuel, cs, acc =>
    match p cs with
    | none => none
    | some (v, rest) =>
      match skipWs rest with
      | ',' :: rest2 => parseElemsWith p fuel rest2 (acc ++ [v])
      | ']' :: rest2 => some (acc ++ [v], rest2)
      | _ => none

/-- Comma-separated object members up to the closing brace, with the
parser for one value passed in as a function. -/
def parseMembersWith (p : List Char → Option (Json × List Char)) :
    Nat → List Char → List (String × Json) →
    Option (List (String × Json) × List Char)
  | 0, _, _ => none
  | Nat.succ fuel, cs, acc =>
    match skipWs cs with
    | '"' :: rest =>
      (match parseStringBody rest "" with
       | none => none
       | some (k, rest2) =>
         match skipWs rest2 with
         | ':' :: rest3 =>
           (match p rest3 with
            | none => none
            | some (v, rest4) =>
              match skipWs rest4 with
              | ',' :: rest5 => parseMembersWith p fuel rest5 (acc ++ [(k, v)])
              | '}' :: rest5 => some (acc ++ [(k, v)], rest5)
              | _ => none)
         | _ => none)
    | _ => none

/-- One JSON value, by recursive descent with a fuel bound. -/
def parseVal : Nat → List Char → Option (Json × List Char)
  | 0, _ => none
  | Nat.succ fuel, cs =>
    match skipWs cs with
    | 'n' :: 'u' :: 'l' :: 'l' :: rest => some (.null, rest)
    | 't' :: 'r' :: 'u' :: 'e' :: rest => some (.bool true, rest)
    | 'f' :: 'a' :: 'l' :: 's' :: 'e' :: rest => some (.bool false, rest)
    | '"' :: rest =>
      (match parseStringBody rest "" with
       | some (s, rest2) => some (.str s, rest2)
       | none => none)
    | '[' :: rest =>
      (match skipWs rest with
       | ']' :: rest2 => some (.arr [], rest2)
       | _ =>
         match parseElemsWith (parseVal fuel) fuel rest [] with
         | some (xs, rest2) => some (.arr xs, rest2)
         | none => none)
    | '{' :: rest =>
      (match skipWs rest with
       | '}' :: rest2 => some (.obj [], rest2)
       | _ =>
         match parseMembersWith (parseVal fuel) fuel rest [] with
         | some (kvs, rest2) => some (.obj kvs, rest2)
         | none => none)
    | rest =>
      match parseJsonNumber rest with
      | some (q, rest2) => some (.num q, rest2)
      | none => none

/-- Embedding of the host JSON.parse: parse one value and require only
trailing whitespace after it; anything else is a parse failure, which
the host surfaces by throwing and this model by returning none. -/
def jsonParse (s : String) : Option Json :=
  match parseVal (s.length * 2 + 4) s.data with
  | some (j, rest) => if skipWs rest = [] then some j else none
  | none => none

/-- Embedding of parseProps (source lines 1 to 8): a null or empty
attribute value gives the empty bag, a parse failure is caught and gives
the empty bag, and otherwise the parsed JSON value is returned as is. -/
def parseProps (value : Option String) : Json :=
  match value with
  | none => Json.obj []
  | some s =>
    if s = "" then Json.obj []
    else
      match jsonParse s with
      | some j => j
      | none => Json.obj []

/-- A JSON value is a key/value object exactly when it is built by the
obj constructor. -/
def Json.isObj : Json → Bool
  | .obj _ => true
  | _ => false

/-- ASCII whitespace for the purposes of the host string trim. The host
also strips rarer Unicode space characters; no design token uses them,
so the model restricts itself to the ASCII ones. -/
def isWsChar (c : Char) : Bool :=
  c = ' ' ∨ c = '\t' ∨ c = '\n' ∨ c = '\r' ∨ c = '\x0b' ∨ c = '\x0c'

/-- Drop whitespace from both ends of a character list. -/
def trimChars (cs : List Char) : List Char :=
  ((cs.dropWhile isWsChar).reverse.dropWhile isWsChar).reverse

/-- Embedding of the host String.prototype.trim used by readCssVar. -/
def strTrim (s : String) : String :=
  String.mk (trimChars s.data)

/-- The brand default palette (source lines 26 to 31). -/
def notBlack : String := "#0f1117"

/-- Brand default for the text slot. -/
def notWhite : String := "#e8eaf0"

/-- Brand default for the muted slot. -/
def brandMuted : String := "#9aa4b2"

/-- Brand default for the accent slot. -/
def brandAccent : String := "#7aa2f7"

/-- Default for the surface slot, written inline in resolveTheme. -/
def surfaceDefault : String := "#111827"

/-- Default for the recess slot, written inline in resolveTheme. -/
def recessDefault : String := "#0b1220"

/-- A scope for design-token reads: the computed style of an element,
as the total map sending a custom property name to its raw string value,
with the empty string for a property that is not set. This is exactly
the interface getComputedStyle(el).getPropertyValue presents. -/
def CssScope : Type := String → String

/-- Embedding of readCssVar (source lines 33 to 36): read the token from
the computed style, trim it, and turn the empty result into null. -/
def readCssVar (scope : CssScope) (name : String) : Option String :=
  let value := strTrim (scope name)
  if value = "" then none else some value

/-- The resolved palette value object (spec section 3 Theme). -/
structure Theme where
  background : String
  surface : String
  text : String
  muted : String
  accent : String
  recess : String
deriving DecidableEq

/-- The format helper inside resolveTheme (source line 46): a truthy
token string is wrapped as hsl(value), anything else falls back. -/
def themeFormat (value : Option String) (fallback : String) : String :=
  match value with
  | some s => if s = "" then fallback else "hsl(" ++ s ++ ")"
  | none => fallback

/-- Embedding of resolveTheme (source lines 38 to 55) applied to the
scope it reads from. The six token names and the six per-slot fallback
colors are exactly those of the source. -/
def resolveTheme (scope : CssScope) : Theme :=
  { background := themeFormat (readCssVar scope "--background") notBlack
    surface := themeFormat (readCssVar scope "--card") surfaceDefault
    text := themeFormat (readCssVar scope "--foreground") notWhite
    muted := themeFormat (readCssVar scope "--muted-foreground") brandMuted
    accent := themeFormat (readCssVar scope "--primary") brandAccent
    recess := themeFormat (readCssVar scope "--recess") recessDefault }

/-- The scope pick at the head of resolveTheme (source line 39): an
explicit presentation-root scope when the caller found one, otherwise
the document root scope. -/
def resolveThemeAt (root : Option CssScope) (docRoot : CssScope) : Theme :=
  resolveTheme (match root with | some r => r | none => docRoot)

/-- Rational addition computed through mkRat on numerator and
denominator data. The library field operations on ℚ are marked
irreducible and do not evaluate by kernel reduction, so every arithmetic
step of the embedding uses these wrappers; agreement with the field
operations is proved in the bridge lemmas below. -/
def ratAdd (a b : ℚ) : ℚ :=
  mkRat (a.num * (b.den : Int) + b.num * (a.den : Int)) (a.den * b.den)

/-- Rational multiplication through mkRat. -/
def ratMul (a b : ℚ) : ℚ :=
  mkRat (a.num * b.num) (a.den * b.den)

/-- Rational division through mkRat; the sign of the divisor moves to
the numerator so the denominator stays a natural number. Division by
zero gives zero here, but every caller guards zero divisors separately
through the JsNum layer. -/
def ratDiv (a b : ℚ) : ℚ :=
  if b.num < 0 then mkRat (-(a.num * (b.den : Int))) (a.den * b.num.natAbs)
  else mkRat (a.num * (b.den : Int)) (a.den * b.num.natAbs)

/-- The larger of two rationals, decided with the order on ℚ. -/
def ratMax (a b : ℚ) : ℚ :=
  if a < b then b else a

/-- A host number: an exact rational, a signed infinity, or
not-a-number. Rounding of finite values is not modelled (rationals are
exact), but infinities and NaN are, because the bar-chart coercion
pipeline can produce them from string props and the host max and
division propagate them. -/
inductive JsNum where
  | fin (q : ℚ)
  | inf (pos : Bool)
  | nan

/-- A host number is finite when it is an exact rational. -/
def JsNum.isFinite : JsNum → Bool
  | .fin _ => true
  | _ => false

/-- The host Math.max on two numbers: NaN absorbs, positive infinity
dominates, negative infinity is the identity. -/
def jsMax : JsNum → JsNum → JsNum
  | .nan, _ => .nan
  | _, .nan => .nan
  | .inf true, _ => .inf true
  | _, .inf true => .inf true
  | .inf false, b => b
  | a, .inf false => a
  | .fin a, .fin b => .fin (ratMax a b)

/-- The host multiplication: NaN absorbs, zero times infinity is NaN,
otherwise infinities keep the product sign. -/
def jsMul : JsNum → JsNum → JsNum
  | .nan, _ => .nan
  | _, .nan => .nan
  | .inf p, .inf q => .inf (p = q)
  | .inf p, .fin b => if b = 0 then .nan else .inf (p = (0 < b))
  | .fin a, .inf q => if a = 0 then .nan else .inf (q = (0 < a))
  | .fin a, .fin b => .fin (ratMul a b)

/-- The host division: NaN absorbs, infinity over infinity is NaN, a
finite value over infinity is zero, a nonzero finite value over zero is
a signed infinity and zero over zero is NaN. The model has no negative
zero, so a zero divisor is treated as positive zero. -/
def jsDiv : JsNum → JsNum → JsNum
  | .nan, _ => .nan
  | _, .nan => .nan
  | .inf _, .inf _ => .nan
  | .fin _, .inf _ => .fin 0
  | .inf p, .fin b => if b = 0 then .inf p else .inf (p = (0 < b))
  | .fin a, .fin b =>
    if b = 0 then (if a = 0 then .nan else .inf (0 < a))
    else .fin (ratDiv a b)

/-- Decimal digit characters of a natural number, most significant
first, by repeated division; the fuel argument only bounds the
recursion and is always ample. -/
def natDigits : Nat → Nat → List Char
  | 0, _ => []
  | Nat.succ fuel, n =>
    if n = 0 then [] else natDigits fuel (n / 10) ++ [Char.ofNat (48 + n % 10)]

/-- Decimal string of a natural number. -/
def natToString (n : Nat) : String :=
  if n = 0 then "0" else String.mk (natDigits (n + 1) n)

/-- Decimal string of an integer. -/
def intToString (i : Int) : String :=
  if i < 0 then "-" ++ natToString i.natAbs else natToString i.natAbs

/-- Left-pad a digit string with zeros to the given length. -/
def padZeros (cs : List Char) (len : Nat) : List Char :=
  List.replicate (len - cs.length) '0' ++ cs

/-- The least power of ten the denominator divides, when one exists
below the search bound; a reduced denominator of the form two to the a
times five to the b always has one. -/
def findPow10 (den : Nat) : Option Nat :=
  (List.range 41).find? (fun k => 10 ^ k % den = 0)

/-- Decimal rendering of a rational: integers print as integers and
terminating decimals print exactly. A rational whose denominator is not
of the form two to the a times five to the b has no terminating decimal;
the host would print the nearest double, which the exact model cannot
represent, so those print as a fraction. No claim rests on that corner. -/
def ratToString (q : ℚ) : String :=
  if q.den = 1 then intToString q.num
  else
    match findPow10 q.den with
    | some k =>
      let scaled := q.num.natAbs * (10 ^ k / q.den)
      let ip := scaled / 10 ^ k
      let fp := scaled % 10 ^ k
      (if q.num < 0 then "-" else "") ++ natToString ip ++ "." ++
        String.mk (padZeros (natDigits (fp + 1) fp) k)
    | none => intToString q.num ++ "/" ++ natToString q.den

/-- Join strings with commas, as the host array toString does. -/
def joinComma : List String → String
  | [] => ""
  | [s] => s
  | s :: rest => s ++ "," ++ joinComma rest

mutual

/-- The host String conversion of a JSON value: null, booleans and
numbers print their literals, arrays join their elements with commas
turning null elements into empty strings, and plain objects print the
object placeholder. -/
def jsStringOf : Json → String
  | .null => "null"
  | .bool true => "true"
  | .bool false => "false"
  | .num q => ratToString q
  | .str s => s
  | .arr xs => jsArrBody xs
  | .obj _ => "[object Object]"
termination_by j => sizeOf j

/-- Comma-joined element strings of an array, with null elements
becoming empty strings, as the host array toString does. -/
def jsArrBody : List Json → String
  | [] => ""
  | [.null] => ""
  | [x] => jsStringOf x
  | .null :: rest => "," ++ jsArrBody rest
  | x :: rest => jsStringOf x ++ "," ++ jsArrBody rest
termination_by xs => sizeOf xs

end

/-- Digits in a given radix, for the 0x, 0o and 0b string number
forms. -/
def radixVal (radix : Nat) (c : Char) : Option Nat :=
  match hexVal c with
  | some v => if v < radix then some v else none
  | none => none

/-- Value of a digit string in a radix, or none when a character is out
of range or the string is empty. -/
def radixToNat (radix : Nat) (cs : List Char) : Option Nat :=
  match cs with
  | [] => none
  | _ =>
    cs.foldl (fun acc c =>
      match acc, radixVal radix c with
      | some n, some v => some (n * radix + v)
      | _, _ => none) (some 0)

/-- The decimal body of the host string-to-number grammar: optional
sign, digits with an optional dot on either side, optional exponent, and
nothing else. Unlike the JSON number grammar this accepts leading dots,
trailing dots, a leading plus and leading zeros. -/
def parseStrNumber (cs : List Char) : Option ℚ :=
  let signed : Bool × List Char := match cs with
    | '-' :: r => (true, r)
    | '+' :: r => (false, r)
    | _ => (false, cs)
  let neg := signed.1
  let ir := takeDigits signed.2 []
  let intDigits := ir.1
  let frParsed : Option (List Char × List Char) := match ir.2 with
    | '.' :: r => some (takeDigits r [])
    | _ => some ([], ir.2)
  match frParsed with
  | none => none
  | some (fracDigits, rest2) =>
    if intDigits = [] ∧ fracDigits = [] then none
    else
      let er : Option (Int × List Char) := match rest2 with
        | 'e' :: r | 'E' :: r =>
          (let esigned : Bool × List Char := match r with
             | '-' :: r2 => (true, r2)
             | '+' :: r2 => (false, r2)
             | _ => (false, r)
           match esigned.2 with
           | c :: _ =>
             if c.isDigit then
               let dr := takeDigits esigned.2 []
               some (if esigned.1 then -(digitsToNat dr.1 : Int) else (digitsToNat dr.1 : Int), dr.2)
             else none
           | [] => none)
        | _ => some (0, rest2)
      match er with
      | none => none
      | some (ep, rest3) =>
        if rest3 = [] then
          some (scientificToRat neg (digitsToNat (intDigits ++ fracDigits)) fracDigits.length ep)
        else none

/-- The host string-to-number conversion: trim, empty becomes zero, the
infinity literals keep their sign, the radix-prefixed integer forms
parse in their radix, and anything else goes through the decimal
grammar or is NaN. -/
def jsStrToNumber (s : String) : JsNum :=
  let t := strTrim s
  if t = "" then .fin 0
  else if t = "Infinity" ∨ t = "+Infinity" then .inf true
  else if t = "-Infinity" then .inf false
  else
    match t.data with
    | '0' :: 'x' :: r | '0' :: 'X' :: r =>
      (match radixToNat 16 r with
       | some n => .fin (mkRat n 1)
       | none => .nan)
    | '0' :: 'o' :: r | '0' :: 'O' :: r =>
      (match radixToNat 8 r with
       | some n => .fin (mkRat n 1)
       | none => .nan)
    | '0' :: 'b' :: r | '0' :: 'B' :: r =>
      (match radixToNat 2 r with
       | some n => .fin (mkRat n 1)
       | none => .nan)
    | body =>
      match parseStrNumber body with
      | some q => .fin q
      | none => .nan

/-- The host Number conversion of a JSON value: null and false are
zero, true is one, numbers pass through, strings parse, arrays convert
through their string form and plain objects are NaN. -/
def toNumber : Json → JsNum
  | .null => .fin 0
  | .bool true => .fin 1
  | .bool false => .fin 0
  | .num q => .fin q
  | .str s => jsStrToNumber s
  | .arr xs => jsStrToNumber (jsStringOf (.arr xs))
  | .obj _ => .nan

/-- Truthiness of a host number: zero and NaN are falsy. -/
def numTruthy : JsNum → Bool
  | .fin q => q ≠ 0
  | .inf _ => true
  | .nan => false

/-- The coercion applied to each bar value (source line 241 and 246):
Number of the value, with a falsy result, in particular NaN, replaced by
zero. -/
def coerceNumOr0 (v : Json) : JsNum :=
  let n := toNumber v
  if numTruthy n then n else .fin 0

/-- The divisor of the bar chart (source line 241): the host Math.max
over the coerced values with one appended, starting from the negative
infinity identity of the variadic Math.max. -/
def motionBarsMax (values : List Json) : JsNum :=
  ((values.map coerceNumOr0) ++ [JsNum.fin 1]).foldl jsMax (JsNum.inf false)

/-- The stored base proportions of the bar chart (source line 246), one
per value, each the coerced value divided by the shared divisor. -/
def motionBarsBases (values : List Json) : List JsNum :=
  values.map (fun raw => jsDiv (coerceNumOr0 raw) (motionBarsMax values))

/-- The initial percentage height of a bar (source line 253): the base
floored at one tenth, times one hundred. -/
def motionBarHeight (base : JsNum) : JsNum :=
  jsMul (jsMax (.fin (mkRat 1 10)) base) (.fin 100)

/-- The default values sequence of the bar chart (source line 239). -/
def defaultBarValues : List Json :=
  [.num 38, .num 52, .num 24, .num 71, .num 43, .num 66]

/-- A host value as components see it: a JSON value or undefined.
Undefined arises from a missing object property and from optional
chaining on null or undefined. -/
inductive JsVal where
  | undefined
  | val (j : Json)

/-- The values sequence the bar chart renders (source line 239): the
values prop when the host Array.isArray accepts it, the default
sequence otherwise. -/
def motionBarsValues (valuesProp : JsVal) : List Json :=
  match valuesProp with
  | .val (.arr xs) => xs
  | _ => defaultBarValues

/-- Last binding of a key among the members of an object, matching host
assignment order when a key occurs twice. -/
def lookupLast (kvs : List (String × Json)) (k : String) : Option Json :=
  kvs.foldl (fun acc kv => if kv.1 = k then some kv.2 else acc) none

/-- A property read, as the host evaluates it: reading from undefined
or null throws a TypeError, reading from an object takes the binding or
undefined, and reading these component keys from any other primitive or
array gives undefined (none of the keys the components read collides
with a built-in own property of those values). -/
def getProp : JsVal → String → Except String JsVal
  | .undefined, k => .error ("TypeError: cannot read properties of undefined (reading " ++ k ++ ")")
  | .val .null, k => .error ("TypeError: cannot read properties of null (reading " ++ k ++ ")")
  | .val (.obj kvs), k =>
    .ok (match lookupLast kvs k with
         | some v => .val v
         | none => .undefined)
  | .val _, _ => .ok .undefined

/-- An optional-chain property read: null and undefined short-circuit
to undefined instead of throwing. -/
def optProp (v : JsVal) (k : String) : Except String JsVal :=
  match v with
  | .undefined => .ok .undefined
  | .val .null => .ok .undefined
  | _ => getProp v k

/-- The nullish-coalescing operator: null and undefined fall through to
the right operand. -/
def nullishVal (a b : JsVal) : JsVal :=
  match a with
  | .undefined => b
  | .val .null => b
  | _ => a

/-- Host truthiness of a value: undefined, null, false, zero and the
empty string are falsy. JSON numbers are never NaN, so the NaN case
lives only in JsNum. -/
def jsTruthy : JsVal → Bool
  | .undefined => false
  | .val .null => false
  | .val (.bool b) => b
  | .val (.num q) => q ≠ 0
  | .val (.str s) => s ≠ ""
  | .val (.arr _) => true
  | .val (.obj _) => true

/-- The host String conversion of a value. -/
def jsValString : JsVal → String
  | .undefined => "undefined"
  | .val j => jsStringOf j

/-- The host for-of iteration: arrays iterate their elements, strings
iterate their characters, and every other value throws a TypeError. -/
def forOfElems : JsVal → Except String (List JsVal)
  | .val (.arr xs) => .ok (xs.map JsVal.val)
  | .val (.str s) => .ok (s.data.map (fun c => JsVal.val (Json.str (String.mk [c]))))
  | _ => .error "TypeError: the value is not iterable"

/-- A rendered DOM node: tag, text content, the style pairs assigned to
it, and its children. Style values are recorded as the strings the
assignments produce; the validation the style object performs on them is
not modelled, since no claim depends on it. -/
inductive Node where
  | el (tag : String) (text : String) (style : List (String × String)) (children : List Node)

/-- The body font stack (source line 23). -/
def baseFont : String := "\"DM Sans\", \"Helvetica Neue\", Arial, sans-serif"

/-- The heading font stack (source line 24). -/
def headingFont : String := "\"Space Grotesk\", \"Helvetica Neue\", Arial, sans-serif"

/-- Embedding of makeText (source lines 14 to 19): a div with the given
text content and style. -/
def makeText (text : String) (style : List (String × String)) : Node :=
  Node.el "div" text style []

/-- Embedding of clear (source lines 10 to 12): remove the first child
until none is left. -/
def clearChildren : List Node → List Node
  | [] => []
  | _ :: rest => clearChildren rest

/-- The smaller of two rationals, decided with the order on ℚ. -/
def ratMin (a b : ℚ) : ℚ :=
  if a < b then a else b

/-- The host Math.min on two numbers: NaN absorbs, negative infinity
dominates, positive infinity is the identity. -/
def jsMin : JsNum → JsNum → JsNum
  | .nan, _ => .nan
  | _, .nan => .nan
  | .inf false, _ => .inf false
  | _, .inf false => .inf false
  | .inf true, b => b
  | a, .inf true => a
  | .fin a, .fin b => .fin (ratMin a b)

/-- The host String conversion of a number, as used when a number lands
in a template literal: finite numbers print their decimal, infinities
and NaN print their literals. -/
def jsNumToString : JsNum → String
  | .fin q => ratToString q
  | .inf true => "Infinity"
  | .inf false => "-Infinity"
  | .nan => "NaN"

/-- The host Number conversion of a value: undefined converts to NaN,
everything else converts as its JSON value does. -/
def toNumberVal : JsVal → JsNum
  | .undefined => .nan
  | .val j => toNumber j

/-- A map carrying the element index, as forEach exposes it. -/
def mapIdx {α β : Type} (f : Nat → α → β) : Nat → List α → List β
  | _, [] => []
  | i, x :: rest => f i x :: mapIdx f (i + 1) rest

/-- The style of makeCard (source lines 62 to 78). The card is created
detached, so its closest lookup finds no presentation root and its
theme resolves against the document root scope, passed here as
docTheme. Components that overwrite single style properties of a card
afterwards append the overriding pairs to this list; the list records
the assignments in program order. -/
def makeCardStyle (padding : Nat) (docTheme : Theme) : List (String × String) :=
  [("display", "flex"), ("flexDirection", "column"), ("gap", "12px"),
   ("padding", natToString padding ++ "px"), ("borderRadius", "18px"),
   ("background", docTheme.surface), ("color", docTheme.text),
   ("fontFamily", baseFont), ("boxSizing", "border-box"), ("width", "100%")]

/-- A card node built by makeCard with the given children. -/
def makeCardNode (padding : Nat) (docTheme : Theme) (children : List Node) : Node :=
  Node.el "div" "" (makeCardStyle padding docTheme) children

/-- The child-list update every render step performs: clear all
existing children, then append the rebuilt subtree; a thrown TypeError
leaves the cleared child list, because clear runs before the first
property read that can throw and the new subtree is attached only at
the end of the build. -/
def renderChildren (build : Except String Node) (cs : List Node) : List Node :=
  match build with
  | .ok w => clearChildren cs ++ [w]
  | .error _ => clearChildren cs

/-- The subtree TitleSlideElement.render builds (source lines 90 to
118), or the TypeError the property reads throw when the decoded props
value is null. Property reads happen in source order: the color read of
the wrap style first, then eyebrow, title and subtitle. -/
def titleSlideBuild (props : Json) (theme : Theme) : Except String Node := do
  let p := JsVal.val props
  let colorV ← getProp p "color"
  let eyebrowV ← getProp p "eyebrow"
  let titleV ← getProp p "title"
  let subtitleV ← getProp p "subtitle"
  pure (Node.el "div" ""
    [("display", "flex"), ("flexDirection", "column"), ("justifyContent", "center"),
     ("alignItems", "center"), ("height", "100%"), ("width", "100%"),
     ("color", jsValString (nullishVal colorV (JsVal.val (Json.str theme.text)))),
     ("fontFamily", baseFont), ("textAlign", "center"), ("padding", "72px"),
     ("boxSizing", "border-box")]
    ((if jsTruthy eyebrowV then
        [makeText (jsValString eyebrowV)
          [("fontSize", "18px"), ("letterSpacing", "0.24em"), ("textTransform", "uppercase"),
           ("opacity", "0.6"), ("marginBottom", "18px"), ("fontFamily", baseFont)]]
      else []) ++
     (if jsTruthy titleV then
        [makeText (jsValString titleV)
          [("fontSize", "64px"), ("fontWeight", "600"), ("marginBottom", "18px"),
           ("fontFamily", headingFont)]]
      else []) ++
     (if jsTruthy subtitleV then
        [makeText (jsValString subtitleV)
          [("fontSize", "28px"), ("opacity", "0.8"), ("fontFamily", baseFont)]]
      else [])))

/-- The render step of TitleSlideElement as a child-list update. -/
def titleSlideChildren (cs : List Node) (props : Json) (theme : Theme) : List Node :=
  renderChildren (titleSlideBuild props theme) cs

/-- The render step of TitleSlideElement with its error surface: the
resulting child list, or the exception the build threw. -/
def titleSlideRender (cs : List Node) (props : Json) (theme : Theme) :
    Except String (List Node) :=
  (titleSlideBuild props theme).map (fun w => clearChildren cs ++ [w])

/-- One card of GridScreenElement.render (source lines 707 to 714). -/
def gridItemCard (docTheme : Theme) (item : JsVal) : Except String Node := do
  let t1 ← optProp item "title"
  let l1 ← optProp item "label"
  let textV ← optProp item "text"
  pure (makeCardNode 20 docTheme
    ([makeText (jsValString (nullishVal t1 (nullishVal l1 (JsVal.val (Json.str "Item")))))
        [("fontSize", "20px"), ("fontWeight", "600"), ("fontFamily", headingFont)]] ++
     (if jsTruthy textV then
        [makeText (jsValString textV) [("fontSize", "16px"), ("opacity", "0.8")]]
      else [])))

/-- The subtree GridScreenElement.render builds (source lines 687 to
717), or the TypeError it throws: reading props.items from a null props
value throws, and iterating a non-iterable items value, such as a
number, throws at the for-of. -/
def gridScreenBuild (props : Json) (theme docTheme : Theme) : Except String Node := do
  let p := JsVal.val props
  let itemsV ← getProp p "items"
  let items := nullishVal itemsV (JsVal.val (Json.arr []))
  let titleV ← getProp p "title"
  let headerKids :=
    if jsTruthy titleV then
      [Node.el "div" "" [("gridColumn", "1 / -1")]
        [makeText (jsValString titleV)
          [("fontSize", "36px"), ("fontWeight", "600"), ("fontFamily", headingFont)]]]
    else []
  let elems ← forOfElems items
  let cards ← elems.mapM (gridItemCard docTheme)
  pure (Node.el "div" ""
    [("display", "grid"), ("gridTemplateColumns", "repeat(3, minmax(0, 1fr))"),
     ("gap", "16px"), ("padding", "48px"), ("color", theme.text), ("fontFamily", baseFont)]
    (headerKids ++ cards))

/-- The render step of GridScreenElement as a child-list update. -/
def gridScreenChildren (cs : List Node) (props : Json) (theme docTheme : Theme) : List Node :=
  renderChildren (gridScreenBuild props theme docTheme) cs

/-- The render step of GridScreenElement with its error surface. -/
def gridScreenRender (cs : List Node) (props : Json) (theme docTheme : Theme) :
    Except String (List Node) :=
  (gridScreenBuild props theme docTheme).map (fun w => clearChildren cs ++ [w])

/-- The subtree BulletListElement.render builds (source lines 131 to
164): header block and a bullet list, with each item stringified into a
list element. Reading props.color throws on a null props value, and the
for-of over a non-iterable bullets.items value throws at the loop. -/
def bulletListBuild (props : Json) (theme : Theme) : Except String Node := do
  let p := JsVal.val props
  let colorV ← getProp p "color"
  let eyebrowV ← getProp p "eyebrow"
  let titleV ← getProp p "title"
  let subtitleV ← getProp p "subtitle"
  let bulletsV ← optProp p "bullets"
  let itemsV ← optProp bulletsV "items"
  let items := nullishVal itemsV (JsVal.val (Json.arr []))
  let elems ← forOfElems items
  pure (Node.el "div" ""
    [("display", "flex"), ("flexDirection", "column"), ("gap", "18px"),
     ("padding", "64px 72px"), ("boxSizing", "border-box"),
     ("color", jsValString (nullishVal colorV (JsVal.val (Json.str theme.text)))),
     ("fontFamily", baseFont)]
    ((if jsTruthy eyebrowV then
        [makeText (jsValString eyebrowV)
          [("fontSize", "18px"), ("letterSpacing", "0.24em"),
           ("textTransform", "uppercase"), ("opacity", "0.6")]]
      else []) ++
     (if jsTruthy titleV then
        [makeText (jsValString titleV)
          [("fontSize", "48px"), ("fontWeight", "600"), ("fontFamily", headingFont)]]
      else []) ++
     (if jsTruthy subtitleV then
        [makeText (jsValString subtitleV) [("fontSize", "24px"), ("opacity", "0.8")]]
      else []) ++
     [Node.el "ul" ""
        [("margin", "0"), ("paddingLeft", "28px"), ("fontSize", "26px"),
         ("lineHeight", "1.45")]
        (elems.map (fun item => Node.el "li" (jsValString item) [] []))]))

/-- One column of the bar chart (source lines 245 to 268): the bar div
carrying its dataset base entry, its percentage height and its initial
scaleY transform, and the label div appended only when the label text
is non-empty. The dataset entry is recorded in the same assignment list
as the style pairs, under its own key. -/
def motionBarCol (accent : String) (labels : List Json) (m : JsNum)
    (idx : Nat) (raw : Json) : Node :=
  let base := jsDiv (coerceNumOr0 raw) m
  let labelText := match labels.get? idx with
    | none => ""
    | some .null => ""
    | some j => jsStringOf j
  Node.el "div" ""
    [("display", "flex"), ("flexDirection", "column"), ("gap", "8px"),
     ("alignItems", "center")]
    ([Node.el "div" ""
        [("dataset.base", jsNumToString base),
         ("width", "100%"),
         ("height", jsNumToString (motionBarHeight base) ++ "%"),
         ("background", accent),
         ("borderRadius", "12px"),
         ("transformOrigin", "bottom"),
         ("transform", "scaleY(" ++ jsNumToString (jsMax (JsNum.fin (mkRat 1 10)) base) ++ ")"),
         ("transition", "none"),
         ("willChange", "transform")] []] ++
     (if labelText ≠ "" then
        [Node.el "div" labelText
          [("fontSize", "14px"), ("opacity", "0.7"), ("textAlign", "center")] []]
      else []))

/-- The subtree MotionBarsElement.render builds (source lines 203 to
272): header block and the six-column chart grid. Property reads happen
in source order and throw exactly when the decoded props value is
null. -/
def motionBarsBuild (props : Json) (theme : Theme) : Except String Node := do
  let p := JsVal.val props
  let colorV ← getProp p "color"
  let eyebrowV ← getProp p "eyebrow"
  let titleV ← getProp p "title"
  let subtitleV ← getProp p "subtitle"
  let valuesV ← getProp p "values"
  let labelsV ← getProp p "labels"
  let accentV ← getProp p "accent"
  let values := motionBarsValues valuesV
  let labels := match labelsV with
    | .val (.arr xs) => xs
    | _ => []
  let m := motionBarsMax values
  let accent := jsValString (nullishVal accentV (JsVal.val (Json.str theme.accent)))
  pure (Node.el "div" ""
    [("display", "flex"), ("flexDirection", "column"), ("gap", "18px"),
     ("padding", "64px 72px"), ("boxSizing", "border-box"),
     ("color", jsValString (nullishVal colorV (JsVal.val (Json.str theme.text)))),
     ("fontFamily", baseFont), ("height", "100%"), ("justifyContent", "center")]
    ((if jsTruthy eyebrowV then
        [makeText (jsValString eyebrowV)
          [("fontSize", "18px"), ("letterSpacing", "0.24em"),
           ("textTransform", "uppercase"), ("opacity", "0.6")]]
      else []) ++
     (if jsTruthy titleV then
        [makeText (jsValString titleV)
          [("fontSize", "48px"), ("fontWeight", "600"), ("fontFamily", headingFont)]]
      else []) ++
     (if jsTruthy subtitleV then
        [makeText (jsValString subtitleV) [("fontSize", "24px"), ("opacity", "0.8")]]
      else []) ++
     [Node.el "div" ""
        [("display", "grid"), ("gridTemplateColumns", "repeat(6, minmax(0, 1fr))"),
         ("gap", "18px"), ("alignItems", "end"), ("height", "320px"),
         ("paddingTop", "8px")]
        (mapIdx (motionBarCol accent labels m) 0 values)]))

/-- The subtree TwoColumnElement.render builds (source lines 285 to
317): full-width header, then the left and right panes with their
label and text defaults. -/
def twoColumnBuild (props : Json) (theme : Theme) : Except String Node := do
  let p := JsVal.val props
  let colorV ← getProp p "color"
  let eyebrowV ← getProp p "eyebrow"
  let titleV ← getProp p "title"
  let subtitleV ← getProp p "subtitle"
  let leftV ← optProp p "left"
  let leftPropsV ← optProp leftV "props"
  let leftLabelV ← optProp leftPropsV "label"
  let leftTextV ← optProp leftPropsV "text"
  let rightV ← optProp p "right"
  let rightPropsV ← optProp rightV "props"
  let rightLabelV ← optProp rightPropsV "label"
  let rightTextV ← optProp rightPropsV "text"
  pure (Node.el "div" ""
    [("display", "grid"), ("gridTemplateColumns", "1fr 1fr"), ("gap", "32px"),
     ("padding", "64px 72px"), ("boxSizing", "border-box"),
     ("color", jsValString (nullishVal colorV (JsVal.val (Json.str theme.text)))),
     ("fontFamily", baseFont), ("height", "100%")]
    [Node.el "div" "" [("gridColumn", "1 / -1")]
      ((if jsTruthy eyebrowV then
          [makeText (jsValString eyebrowV)
            [("fontSize", "18px"), ("letterSpacing", "0.24em"),
             ("textTransform", "uppercase"), ("opacity", "0.6")]]
        else []) ++
       (if jsTruthy titleV then
          [makeText (jsValString titleV)
            [("fontSize", "48px"), ("fontWeight", "600"), ("fontFamily", headingFont)]]
        else []) ++
       (if jsTruthy subtitleV then
          [makeText (jsValString subtitleV) [("fontSize", "24px"), ("opacity", "0.8")]]
        else [])),
     Node.el "div" "" []
      [makeText (jsValString (nullishVal leftLabelV (JsVal.val (Json.str "Left"))))
        [("fontSize", "22px"), ("fontWeight", "600"), ("marginBottom", "12px"),
         ("fontFamily", headingFont)],
       makeText (jsValString (nullishVal leftTextV (JsVal.val (Json.str ""))))
        [("fontSize", "20px"), ("opacity", "0.85")]],
     Node.el "div" "" []
      [makeText (jsValString (nullishVal rightLabelV (JsVal.val (Json.str "Right"))))
        [("fontSize", "22px"), ("fontWeight", "600"), ("marginBottom", "12px"),
         ("fontFamily", headingFont)],
       makeText (jsValString (nullishVal rightTextV (JsVal.val (Json.str ""))))
        [("fontSize", "20px"), ("opacity", "0.85")]]])

/-- The subtree ChapterHeadingElement.render builds (source lines 330
to 353): the large ordinal, suppressed only by a showNumber prop that
is strictly the boolean false, and the title stack. -/
def chapterHeadingBuild (props : Json) (theme : Theme) : Except String Node := do
  let p := JsVal.val props
  let colorV ← getProp p "color"
  let showNumberV ← getProp p "showNumber"
  let numberV ← getProp p "number"
  let titleV ← getProp p "title"
  let subtitleV ← getProp p "subtitle"
  let showNumber := match showNumberV with
    | .val (.bool false) => false
    | _ => true
  pure (Node.el "div" ""
    [("display", "flex"), ("alignItems", "center"), ("gap", "32px"),
     ("padding", "64px 72px"), ("boxSizing", "border-box"),
     ("color", jsValString (nullishVal colorV (JsVal.val (Json.str theme.text)))),
     ("fontFamily", baseFont), ("height", "100%")]
    ((if showNumber then
        [makeText (jsValString (nullishVal numberV (JsVal.val (Json.str "01"))))
          [("fontSize", "80px"), ("fontWeight", "700"), ("opacity", "0.8"),
           ("fontFamily", headingFont)]]
      else []) ++
     [Node.el "div" "" []
       ((if jsTruthy titleV then
           [makeText (jsValString titleV)
             [("fontSize", "48px"), ("fontWeight", "600"), ("fontFamily", headingFont)]]
         else []) ++
        (if jsTruthy subtitleV then
           [makeText (jsValString subtitleV) [("fontSize", "24px"), ("opacity", "0.8")]]
         else []))]))

/-- The subtree VideoTitleElement.render builds (source lines 366 to
380): one absolutely positioned text node. Reading props.text throws
on a null props value; the position reads are optional chains. -/
def videoTitleBuild (props : Json) (theme : Theme) : Except String Node := do
  let p := JsVal.val props
  let textV ← getProp p "text"
  let posV ← optProp p "position"
  let xV ← optProp posV "x"
  let yV ← optProp posV "y"
  let fontSizeV ← getProp p "fontSize"
  let colorV ← getProp p "color"
  pure (makeText (jsValString (nullishVal textV (JsVal.val (Json.str ""))))
    [("position", "absolute"),
     ("left", jsValString (nullishVal xV (JsVal.val (Json.num 0))) ++ "px"),
     ("top", jsValString (nullishVal yV (JsVal.val (Json.num 0))) ++ "px"),
     ("fontSize", jsValString (nullishVal fontSizeV (JsVal.val (Json.num 48))) ++ "px"),
     ("color", jsValString (nullishVal colorV (JsVal.val (Json.str theme.text)))),
     ("fontFamily", headingFont), ("fontWeight", "600")])

/-- The subtree VideoSubtitleElement.render builds (source lines 393
to 407), as the video title but with the body font, the muted theme
slot and the smaller default size. -/
def videoSubtitleBuild (props : Json) (theme : Theme) : Except String Node := do
  let p := JsVal.val props
  let textV ← getProp p "text"
  let posV ← optProp p "position"
  let xV ← optProp posV "x"
  let yV ← optProp posV "y"
  let fontSizeV ← getProp p "fontSize"
  let colorV ← getProp p "color"
  pure (makeText (jsValString (nullishVal textV (JsVal.val (Json.str ""))))
    [("position", "absolute"),
     ("left", jsValString (nullishVal xV (JsVal.val (Json.num 0))) ++ "px"),
     ("top", jsValString (nullishVal yV (JsVal.val (Json.num 0))) ++ "px"),
     ("fontSize", jsValString (nullishVal fontSizeV (JsVal.val (Json.num 32))) ++ "px"),
     ("color", jsValString (nullishVal colorV (JsVal.val (Json.str theme.muted)))),
     ("fontFamily", baseFont), ("fontWeight", "400")])

/-- The subtree VideoRectangleElement.render builds (source lines 420
to 434): one absolutely positioned and sized rectangle. -/
def videoRectangleBuild (props : Json) (theme : Theme) : Except String Node := do
  let p := JsVal.val props
  let posV ← optProp p "position"
  let xV ← optProp posV "x"
  let yV ← optProp posV "y"
  let widthV ← getProp p "width"
  let heightV ← getProp p "height"
  let colorV ← getProp p "color"
  pure (Node.el "div" ""
    [("position", "absolute"),
     ("left", jsValString (nullishVal xV (JsVal.val (Json.num 0))) ++ "px"),
     ("top", jsValString (nullishVal yV (JsVal.val (Json.num 0))) ++ "px"),
     ("width", jsValString (nullishVal widthV (JsVal.val (Json.num 100))) ++ "px"),
     ("height", jsValString (nullishVal heightV (JsVal.val (Json.num 100))) ++ "px"),
     ("background", jsValString (nullishVal colorV (JsVal.val (Json.str theme.background))))]
    [])

/-- The subtree BackgroundElement.render builds (source lines 447 to
460): the full-bleed fill, with the background prop read only when the
color prop is nullish, as the lazy coalescing chain evaluates. -/
def backgroundBuild (props : Json) (theme : Theme) : Except String Node := do
  let p := JsVal.val props
  let colorV ← getProp p "color"
  let fill ← match colorV with
    | .undefined => do
        let bgV ← getProp p "background"
        pure (nullishVal bgV (JsVal.val (Json.str theme.background)))
    | .val .null => do
        let bgV ← getProp p "background"
        pure (nullishVal bgV (JsVal.val (Json.str theme.background)))
    | _ => pure colorV
  pure (Node.el "div" ""
    [("position", "absolute"), ("inset", "0"), ("width", "100%"),
     ("height", "100%"), ("background", jsValString fill)]
    [])

/-- The subtree ProgressBarElement.render builds (source lines 473 to
507): the label, and the track holding the fill whose width is the
progress value clamped into zero to one hundred by the min and max of
the host; a NaN coercion stays NaN through the clamp. Second reads of
a lazy coalescing chain are performed only when the earlier operand is
nullish. -/
def progressBarBuild (props : Json) (theme : Theme) : Except String Node := do
  let p := JsVal.val props
  let labelV ← getProp p "label"
  let labelV2 ← match labelV with
    | .undefined => getProp p "title"
    | .val .null => getProp p "title"
    | _ => pure labelV
  let label := nullishVal labelV2 (JsVal.val (Json.str "Progress"))
  let progV ← getProp p "progress"
  let progV2 ← match progV with
    | .undefined => getProp p "percent"
    | .val .null => getProp p "percent"
    | _ => pure progV
  let pct := jsMax (JsNum.fin 0)
    (jsMin (JsNum.fin 100) (toNumberVal (nullishVal progV2 (JsVal.val (Json.num 50)))))
  pure (Node.el "div" ""
    [("display", "flex"), ("flexDirection", "column"), ("gap", "12px"),
     ("padding", "32px"), ("width", "100%"), ("boxSizing", "border-box"),
     ("color", theme.text), ("fontFamily", baseFont)]
    [makeText (jsValString label) [("fontSize", "20px"), ("opacity", "0.8")],
     Node.el "div" ""
       [("height", "12px"), ("background", theme.surface),
        ("borderRadius", "999px"), ("overflow", "hidden")]
       [Node.el "div" ""
         [("height", "100%"), ("width", jsNumToString pct ++ "%"),
          ("background", theme.accent)] []]])

/-- The subtree QuoteCardElement.render builds (source lines 520 to
532): a card whose background and color are overwritten with the
component scope theme, the quotation in typographic quotes, and the
attribution line shown when attribution or author is truthy. -/
def quoteCardBuild (props : Json) (theme docTheme : Theme) : Except String Node := do
  let p := JsVal.val props
  let quoteV ← getProp p "quote"
  let quoteV2 ← match quoteV with
    | .undefined => getProp p "text"
    | .val .null => getProp p "text"
    | _ => pure quoteV
  let attrV ← getProp p "attribution"
  let authV ← getProp p "author"
  pure (Node.el "div" ""
    (makeCardStyle 36 docTheme ++ [("background", theme.surface), ("color", theme.text)])
    ([makeText ("“" ++ jsValString (nullishVal quoteV2 (JsVal.val (Json.str "Quote"))) ++ "”")
        [("fontSize", "30px"), ("lineHeight", "1.4"), ("fontFamily", headingFont)]] ++
     (if jsTruthy attrV || jsTruthy authV then
        [makeText (jsValString (nullishVal attrV authV))
          [("fontSize", "18px"), ("opacity", "0.7")]]
      else [])))

/-- The subtree LowerThirdElement.render builds (source lines 545 to
560): the bottom-left anchored card with its title and subtitle rows,
each shown when either of its two source props is truthy. -/
def lowerThirdBuild (props : Json) (theme docTheme : Theme) : Except String Node := do
  let p := JsVal.val props
  let titleV ← getProp p "title"
  let nameV ← getProp p "name"
  let subtitleV ← getProp p "subtitle"
  let roleV ← getProp p "role"
  pure (Node.el "div" ""
    (makeCardStyle 20 docTheme ++
     [("background", theme.surface), ("color", theme.text),
      ("position", "absolute"), ("left", "48px"), ("bottom", "48px"),
      ("maxWidth", "520px")])
    ((if jsTruthy titleV || jsTruthy nameV then
        [makeText (jsValString (nullishVal titleV nameV))
          [("fontSize", "26px"), ("fontWeight", "600"), ("fontFamily", headingFont)]]
      else []) ++
     (if jsTruthy subtitleV || jsTruthy roleV then
        [makeText (jsValString (nullishVal subtitleV roleV))
          [("fontSize", "18px"), ("opacity", "0.8")]]
      else [])))

/-- The subtree CalloutElement.render builds (source lines 573 to
588): the bounded card with its optional title and body. -/
def calloutBuild (props : Json) (theme docTheme : Theme) : Except String Node := do
  let p := JsVal.val props
  let titleV ← getProp p "title"
  let bodyV ← getProp p "body"
  let textV ← getProp p "text"
  pure (Node.el "div" ""
    (makeCardStyle 28 docTheme ++
     [("background", theme.surface), ("color", theme.text),
      ("maxWidth", "720px"), ("margin", "48px")])
    ((if jsTruthy titleV then
        [makeText (jsValString titleV) [("fontSize", "28px"), ("fontWeight", "600")]]
      else []) ++
     (if jsTruthy bodyV || jsTruthy textV then
        [makeText (jsValString (nullishVal bodyV textV))
          [("fontSize", "20px"), ("opacity", "0.85")]]
      else [])))

/-- The subtree ChyronElement.render builds (source lines 601 to 614):
the bottom-left anchored card with its label row and optional text. -/
def chyronBuild (props : Json) (theme docTheme : Theme) : Except String Node := do
  let p := JsVal.val props
  let labelV ← getProp p "label"
  let labelV2 ← match labelV with
    | .undefined => getProp p "title"
    | .val .null => getProp p "title"
    | _ => pure labelV
  let textV ← getProp p "text"
  pure (Node.el "div" ""
    (makeCardStyle 18 docTheme ++
     [("background", theme.surface), ("color", theme.text),
      ("position", "absolute"), ("left", "48px"), ("bottom", "48px"),
      ("maxWidth", "640px")])
    ([makeText (jsValString (nullishVal labelV2 (JsVal.val (Json.str "Chyron"))))
        [("fontSize", "18px"), ("opacity", "0.7")]] ++
     (if jsTruthy textV then
        [makeText (jsValString textV) [("fontSize", "22px")]]
      else [])))

/-- The subtree CodeBlockElement.render builds (source lines 627 to
645): one preformatted block. The source falls back from theme.recess
to theme.surface, but the resolved Theme always populates recess, so
that branch is dead. -/
def codeBlockBuild (props : Json) (theme : Theme) : Except String Node := do
  let p := JsVal.val props
  let codeV ← getProp p "code"
  let codeV2 ← match codeV with
    | .undefined => getProp p "text"
    | .val .null => getProp p "text"
    | _ => pure codeV
  pure (Node.el "pre" (jsValString (nullishVal codeV2 (JsVal.val (Json.str "// code"))))
    [("background", theme.recess), ("color", theme.text), ("padding", "24px"),
     ("borderRadius", "18px"), ("fontSize", "18px"),
     ("fontFamily", "ui-monospace, SFMono-Regular, Menlo, Monaco, Consolas, monospace"),
     ("lineHeight", "1.5"), ("margin", "48px"), ("whiteSpace", "pre-wrap")]
    [])

/-- The subtree ContentScreenElement.render builds (source lines 658
to 674): the plain header screen; its first property read is the title
check, which throws on a null props value. -/
def contentScreenBuild (props : Json) (theme : Theme) : Except String Node := do
  let p := JsVal.val props
  let titleV ← getProp p "title"
  let subtitleV ← getProp p "subtitle"
  pure (Node.el "div" ""
    [("display", "flex"), ("flexDirection", "column"), ("gap", "12px"),
     ("padding", "64px"), ("color", theme.text), ("fontFamily", baseFont)]
    ((if jsTruthy titleV then
        [makeText (jsValString titleV)
          [("fontSize", "48px"), ("fontWeight", "600"), ("fontFamily", headingFont)]]
      else []) ++
     (if jsTruthy subtitleV then
        [makeText (jsValString subtitleV) [("fontSize", "24px"), ("opacity", "0.8")]]
      else [])))

/-- The subtree ThreeColumnElement.render builds (source lines 729 to
752): one card per entry of the columns sequence; iterating a
non-iterable columns value throws at the for-of. -/
def threeColumnBuild (props : Json) (theme docTheme : Theme) : Except String Node := do
  let p := JsVal.val props
  let columnsV ← getProp p "columns"
  let columns := nullishVal columnsV (JsVal.val (Json.arr []))
  let cols ← forOfElems columns
  let cards ← cols.mapM (fun col => do
    let titleV ← optProp col "title"
    let textV ← optProp col "text"
    pure (makeCardNode 24 docTheme
      ([makeText (jsValString (nullishVal titleV (JsVal.val (Json.str "Column"))))
          [("fontSize", "22px"), ("fontWeight", "600"), ("fontFamily", headingFont)]] ++
       (if jsTruthy textV then
          [makeText (jsValString textV) [("fontSize", "18px"), ("opacity", "0.85")]]
        else []))))
  pure (Node.el "div" ""
    [("display", "grid"), ("gridTemplateColumns", "repeat(3, minmax(0, 1fr))"),
     ("gap", "24px"), ("padding", "64px"), ("color", theme.text),
     ("fontFamily", baseFont)]
    cards)

/-- The render step of BulletListElement as a child-list update. -/
def bulletListChildren (cs : List Node) (props : Json) (theme : Theme) : List Node :=
  renderChildren (bulletListBuild props theme) cs

/-- The render step of MotionBarsElement as a child-list update. -/
def motionBarsChildren (cs : List Node) (props : Json) (theme : Theme) : List Node :=
  renderChildren (motionBarsBuild props theme) cs

/-- The render step of TwoColumnElement as a child-list update. -/
def twoColumnChildren (cs : List Node) (props : Json) (theme : Theme) : List Node :=
  renderChildren (twoColumnBuild props theme) cs

/-- The render step of ChapterHeadingElement as a child-list update. -/
def chapterHeadingChildren (cs : List Node) (props : Json) (theme : Theme) : List Node :=
  renderChildren (chapterHeadingBuild props theme) cs

/-- The render step of VideoTitleElement as a child-list update. -/
def videoTitleChildren (cs : List Node) (props : Json) (theme : Theme) : List Node :=
  renderChildren (videoTitleBuild props theme) cs

/-- The render step of VideoSubtitleElement as a child-list update. -/
def videoSubtitleChildren (cs : List Node) (props : Json) (theme : Theme) : List Node :=
  renderChildren (videoSubtitleBuild props theme) cs

/-- The render step of VideoRectangleElement as a child-list update. -/
def videoRectangleChildren (cs : List Node) (props : Json) (theme : Theme) : List Node :=
  renderChildren (videoRectangleBuild props theme) cs

/-- The render step of BackgroundElement as a child-list update. -/
def backgroundChildren (cs : List Node) (props : Json) (theme : Theme) : List Node :=
  renderChildren (backgroundBuild props theme) cs

/-- The render step of ProgressBarElement as a child-list update. -/
def progressBarChildren (cs : List Node) (props : Json) (theme : Theme) : List Node :=
  renderChildren (progressBarBuild props theme) cs

/-- The render step of QuoteCardElement as a child-list update. -/
def quoteCardChildren (cs : List Node) (props : Json) (theme docTheme : Theme) : List Node :=
  renderChildren (quoteCardBuild props theme docTheme) cs

/-- The render step of LowerThirdElement as a child-list update. -/
def lowerThirdChildren (cs : List Node) (props : Json) (theme docTheme : Theme) : List Node :=
  renderChildren (lowerThirdBuild props theme docTheme) cs

/-- The render step of CalloutElement as a child-list update. -/
def calloutChildren (cs : List Node) (props : Json) (theme docTheme : Theme) : List Node :=
  renderChildren (calloutBuild props theme docTheme) cs

/-- The render step of ChyronElement as a child-list update. -/
def chyronChildren (cs : List Node) (props : Json) (theme docTheme : Theme) : List Node :=
  renderChildren (chyronBuild props theme docTheme) cs

/-- The render step of CodeBlockElement as a child-list update. -/
def codeBlockChildren (cs : List Node) (props : Json) (theme : Theme) : List Node :=
  renderChildren (codeBlockBuild props theme) cs

/-- The render step of ContentScreenElement as a child-list update. -/
def contentScreenChildren (cs : List Node) (props : Json) (theme : Theme) : List Node :=
  renderChildren (contentScreenBuild props theme) cs

/-- The render step of ThreeColumnElement as a child-list update. -/
def threeColumnChildren (cs : List Node) (props : Json) (theme docTheme : Theme) : List Node :=
  renderChildren (threeColumnBuild props theme docTheme) cs

/-- A bar node of the bar chart: the stored base proportion, the
current scaleY factor of its transform, and a ghost counter of how many
times a tick handler has assigned its transform. The host stores the
base as a dataset string and reads it back with parseFloat; that round
trip is the identity on numbers and is modelled directly. -/
structure MBar where
  base : JsNum
  transform : JsNum
  writes : Nat

/-- The bar list MotionBarsElement.render builds (source lines 203 to
272), or the TypeError its property reads throw when the decoded props
value is null. The reads happen in source order; values, labels and
accent are read even though only values reaches the bar state. -/
def motionBarsRenderBars (props : Json) : Except String (List MBar) := do
  let p := JsVal.val props
  let _colorV ← getProp p "color"
  let _eyebrowV ← getProp p "eyebrow"
  let _titleV ← getProp p "title"
  let _subtitleV ← getProp p "subtitle"
  let valuesV ← getProp p "values"
  let _labelsV ← getProp p "labels"
  let _accentV ← getProp p "accent"
  let values := motionBarsValues valuesV
  let m := motionBarsMax values
  pure (values.map (fun raw =>
    { base := jsDiv (coerceNumOr0 raw) m
      transform := jsMax (JsNum.fin (mkRat 1 10)) (jsDiv (coerceNumOr0 raw) m)
      writes := 0 }))

/-- The state of one MotionBarsElement instance: whether it is attached
under the presentation root, the stored tick handler, and its current
bar nodes. -/
structure MBComp where
  attached : Bool
  tickHandler : Option Nat
  barNodes : List MBar

/-- The state of the presentation root and one bar-chart component:
the listeners registered on the root for the timeline tick event, in
registration order and named by creation index, and a fresh-index
counter. This model restricts the document to a single presentation
root, so the component is attached under that root or detached; the
multi-root generalisation, where re-attachment can target a different
root, is MB2Sys below. -/
structure MBSys where
  comp : MBComp
  rootListeners : List Nat
  fresh : Nat

/-- The closest lookup for the presentation root from the component,
in the single-root document: it finds the one root exactly when the
component is currently attached under it, and nothing when the
component is detached, because closest walks the ancestors the node
has at the moment of the call. -/
def mbClosestRoot (attached : Bool) : Option Unit :=
  if attached then some () else none

/-- The tick handler body for one bar (source lines 195 to 199): read
the base back, compute the periodic scale from the tick time and the
bar index, and assign the floored transform. The host Math.sin is a
primitive on the host; the model takes it as an arbitrary function on
exact rationals. The ghost write counter increments on the assignment. -/
def tickUpdateBar (sinQ : ℚ → ℚ) (time : ℚ) (idx : Nat) (bar : MBar) : MBar :=
  let scale : ℚ :=
    ratAdd (mkRat 7 10)
      (ratMul (mkRat 3 10) (sinQ (ratAdd (ratMul time (mkRat 2 1)) (mkRat (idx : Int) 1))))
  { bar with
    transform := jsMax (JsNum.fin (mkRat 1 10)) (jsMul bar.base (JsNum.fin scale))
    writes := bar.writes + 1 }

/-- The forEach of the tick handler over the bar nodes with their
indices. -/
def tickMapBars (sinQ : ℚ → ℚ) (time : ℚ) : Nat → List MBar → List MBar
  | _, [] => []
  | idx, b :: rest => tickUpdateBar sinQ time idx b :: tickMapBars sinQ time (idx + 1) rest

/-- Embedding of bindTimeline (source lines 186 to 202): no root, no
subscription; otherwise remove the previously stored handler from the
root, store a fresh handler, and register it. -/
def mbBind (s : MBSys) : MBSys :=
  match mbClosestRoot s.comp.attached with
  | none => s
  | some _ =>
    let pruned := match s.comp.tickHandler with
      | some h => s.rootListeners.erase h
      | none => s.rootListeners
    { comp := { s.comp with tickHandler := some s.fresh }
      rootListeners := pruned ++ [s.fresh]
      fresh := s.fresh + 1 }

/-- The lifecycle events of one bar-chart instance: attachment under
the root, detachment, a prop-attribute change, and a tick broadcast on
the root. -/
inductive MBEvent where
  | connect (props : Json)
  | disconnect
  | attrChange (props : Json)
  | timelineTick (time : ℚ)

/-- One lifecycle step. Attachment renders and then binds the
timeline, with a render exception aborting the callback before the
bind. Detachment removes the node first and then runs
disconnectedCallback, whose closest lookup therefore runs on the
already detached node. A prop change only re-renders. A tick broadcast
runs every listener registered on the root, each executing the handler
body over the current bar nodes. -/
def mbStep (sinQ : ℚ → ℚ) : MBEvent → MBSys → MBSys
  | .connect props, s =>
    let s1 : MBSys := { s with comp := { s.comp with attached := true } }
    (match motionBarsRenderBars props with
     | .ok bars => mbBind { s1 with comp := { s1.comp with barNodes := bars } }
     | .error _ => s1)
  | .disconnect, s =>
    let s1 : MBSys := { s with comp := { s.comp with attached := false } }
    (match mbClosestRoot s1.comp.attached, s1.comp.tickHandler with
     | some _, some h => { s1 with rootListeners := s1.rootListeners.erase h }
     | _, _ => s1)
  | .attrChange props, s =>
    (match motionBarsRenderBars props with
     | .ok bars => { s with comp := { s.comp with barNodes := bars } }
     | .error _ => s)
  | .timelineTick time, s =>
    s.rootListeners.foldl
      (fun acc _ =>
        { acc with comp := { acc.comp with barNodes := tickMapBars sinQ time 0 acc.comp.barNodes } })
      s

/-- The initial state: a detached instance with no handler and no bars,
and a root with no listeners. -/
def mbInit : MBSys :=
  { comp := { attached := false, tickHandler := none, barNodes := [] }
    rootListeners := []
    fresh := 0 }

/-- A run of the lifecycle over a list of events. -/
def mbRun (sinQ : ℚ → ℚ) (evs : List MBEvent) : MBSys :=
  evs.foldl (fun s e => mbStep sinQ e s) mbInit

/-- The subscription invariant of one bar-chart instance: either the
root has no listener, or the stored handler is the single registered
listener. -/
def mbInv (s : MBSys) : Prop :=
  s.rootListeners = [] ∨
    ∃ h, s.comp.tickHandler = some h ∧ (s.rootListeners = [] ∨ s.rootListeners = [h])

/-- The state of one bar-chart instance in a document with any number
of presentation roots, named by index: the root the component currently
sits under, if any, the stored handler, and the bars. -/
structure MB2Comp where
  attachedUnder : Option Nat
  tickHandler : Option Nat
  barNodes : List MBar

/-- The multi-root system state: the component, the listener list of
every presentation root, and the fresh-index counter. -/
structure MB2Sys where
  comp : MB2Comp
  roots : Nat → List Nat
  fresh : Nat

/-- Pointwise update of one root listener list. -/
def updRoots (f : Nat → List Nat) (r : Nat) (l : List Nat) : Nat → List Nat :=
  fun r2 => if r2 = r then l else f r2

/-- The lifecycle events in the multi-root document: attachment names
the root it places the component under, and a tick broadcast names the
root it is dispatched on. -/
inductive MB2Event where
  | connect (root : Nat) (props : Json)
  | disconnect
  | attrChange (props : Json)
  | timelineTick (root : Nat) (time : ℚ)

/-- Embedding of bindTimeline in the multi-root document: closest
finds the root the component currently sits under; the previously
stored handler is removed from that root, the root a previous
attachment registered it on is not consulted. -/
def mb2Bind (s : MB2Sys) : MB2Sys :=
  match s.comp.attachedUnder with
  | none => s
  | some r =>
    let pruned := match s.comp.tickHandler with
      | some h => (s.roots r).erase h
      | none => s.roots r
    { comp := { s.comp with tickHandler := some s.fresh }
      roots := updRoots s.roots r (pruned ++ [s.fresh])
      fresh := s.fresh + 1 }

/-- One lifecycle step in the multi-root document, with the same
callback timing as the single-root model: detachment clears the
ancestor link before disconnectedCallback runs its closest lookup, and
a tick on one root runs the listeners registered on that root over the
current bars. -/
def mb2Step (sinQ : ℚ → ℚ) : MB2Event → MB2Sys → MB2Sys
  | .connect r props, s =>
    let s1 : MB2Sys := { s with comp := { s.comp with attachedUnder := some r } }
    (match motionBarsRenderBars props with
     | .ok bars => mb2Bind { s1 with comp := { s1.comp with barNodes := bars } }
     | .error _ => s1)
  | .disconnect, s =>
    let s1 : MB2Sys := { s with comp := { s.comp with attachedUnder := none } }
    (match s1.comp.attachedUnder, s1.comp.tickHandler with
     | some r, some h => { s1 with roots := updRoots s1.roots r ((s1.roots r).erase h) }
     | _, _ => s1)
  | .attrChange props, s =>
    (match motionBarsRenderBars props with
     | .ok bars => { s with comp := { s.comp with barNodes := bars } }
     | .error _ => s)
  | .timelineTick r time, s =>
    (s.roots r).foldl
      (fun acc _ =>
        { acc with comp := { acc.comp with barNodes := tickMapBars sinQ time 0 acc.comp.barNodes } })
      s

/-- The initial multi-root state: a detached instance and no listeners
anywhere. -/
def mb2Init : MB2Sys :=
  { comp := { attachedUnder := none, tickHandler := none, barNodes := [] }
    roots := fun _ => []
    fresh := 0 }

/-- A run of the multi-root lifecycle over a list of events. -/
def mb2Run (sinQ : ℚ → ℚ) (evs : List MB2Event) : MB2Sys :=
  evs.foldl (fun s e => mb2Step sinQ e s) mb2Init

/-- A registered component implementation, identified by its
constructor: the one shared FallbackElement class, or a distinct named
class. The registerVideoMLComponents driver mints a fresh subclass per
alias through defineAlias precisely because the host registry rejects a
constructor that is already registered under another name; those
classes are the distinct namedImpl values here. -/
inductive CompImpl where
  | fallbackImpl
  | namedImpl (id : Nat)
deriving BEq, DecidableEq

/-- The custom element registry as the ordered list of definitions. -/
def Registry : Type := List (String × CompImpl)

/-- The registry lookup, customElements.get: the definition registered
for a tag, if any. -/
def regGet : List (String × CompImpl) → String → Option CompImpl
  | [], _ => none
  | (t, i) :: rest, tag => if t = tag then some i else regGet rest tag

/-- The host customElements.define: it throws NotSupportedError when
the name is already defined, and also when the constructor is already
registered under any name; only otherwise does it add the
definition. -/
def ceDefine (reg : List (String × CompImpl)) (tag : String) (impl : CompImpl) :
    Except String (List (String × CompImpl)) :=
  if (regGet reg tag).isSome then
    .error "NotSupportedError: the name has already been used with this registry"
  else if reg.any (fun kv => kv.2 == impl) then
    .error "NotSupportedError: the constructor has already been used with this registry"
  else
    .ok (reg ++ [(tag, impl)])

/-- Lowercasing as tagName.toLowerCase performs it. -/
def strToLower (s : String) : String :=
  String.mk (s.data.map Char.toLower)

/-- Whether a tag name contains a hyphen. -/
def hasHyphen (s : String) : Bool :=
  s.data.contains '-'

/-- First-occurrence deduplication with a seen accumulator, matching
the insertion order of the host Set. -/
def dedupFirstAux : List String → List String → List String
  | _, [] => []
  | seen, x :: rest =>
    if seen.contains x then dedupFirstAux seen rest
    else x :: dedupFirstAux (x :: seen) rest

/-- The tag collection of registerFallbackComponents (source lines 828
to 834) over the scanned element tag names: lowercase every tag, keep
the hyphenated ones, and deduplicate in insertion order. -/
def scanTags (elements : List String) : List String :=
  dedupFirstAux [] ((elements.map strToLower).filter hasHyphen)

/-- The registration loop of registerFallbackComponents (source lines
835 to 839): each collected tag with no registered implementation is
passed to customElements.define with the one shared FallbackElement
constructor. A throw from define aborts the loop; the definitions made
before it persist in the registry and the exception is reported
alongside the resulting registry state. -/
def regFallbackLoop : List String → List (String × CompImpl) →
    List (String × CompImpl) × Option String
  | [], reg => (reg, none)
  | tag :: rest, reg =>
    if (regGet reg tag).isSome then regFallbackLoop rest reg
    else
      match ceDefine reg tag CompImpl.fallbackImpl with
      | .ok reg2 => regFallbackLoop rest reg2
      | .error e => (reg, some e)

/-- Embedding of registerFallbackComponents (source lines 826 to 840).
The elements argument stands for the tag names of the scanned element
sequence the host produces, the root followed by all its descendants
from the universal-selector query; the subtree walk itself is a host
primitive. The result is the registry after the scan together with the
exception the scan threw, if any. -/
def registerFallbackComponents (reg : List (String × CompImpl)) (elements : List String) :
    List (String × CompImpl) × Option String :=
  regFallbackLoop (scanTags elements) reg

/-- How many definitions a registry holds for a tag. -/
def regCount (reg : List (String × CompImpl)) (tag : String) : Nat :=
  (reg.filter (fun kv => kv.1 == tag)).length

/-- The label style of FallbackElement (source lines 816 to 821). -/
def fallbackLabelStyle : List (String × String) :=
  [("fontFamily", "system-ui, sans-serif"), ("fontSize", "14px"),
   ("opacity", "0.6"), ("padding", "8px")]

/-- Embedding of FallbackElement.connectedCallback (source lines 812 to
823): with any child already present it returns unchanged, otherwise it
appends one label div whose text is the lowercased tag name in angle
brackets. -/
def fallbackConnected (tag : String) (children : List Node) : List Node :=
  if children.length ≠ 0 then children
  else children ++ [Node.el "div" ("<" ++ strToLower tag ++ ">") fallbackLabelStyle []]

example : jsonParse "5" = some (Json.num 5) := rfl
example : jsonParse "\x7b\"items\":5\x7d" = some (Json.obj [("items", Json.num 5)]) := rfl
example : jsonParse "\x7b" = none := rfl
example : parseProps (some "5") = Json.num 5 := rfl
example : jsonParse "[38,52,24]" = some (Json.arr [Json.num 38, Json.num 52, Json.num 24]) := rfl
example : jsonParse "1.5" = some (Json.num (mkRat 3 2)) := rfl
example : jsonParse "-2e2" = some (Json.num (-200)) := rfl
example : jsonParse "05" = none := rfl
example : jsonParse "[1," = none := rfl
example : jsonParse "tru" = none := rfl
example : jsonParse " \"a b\" " = some (Json.str "a b") := rfl
example : (resolveTheme (fun _ => "")).accent = "#7aa2f7" := rfl
example : (resolveTheme (fun _ => " 222 14% 7% ")).background = "hsl(222 14% 7%)" := rfl
example : motionBarsMax defaultBarValues = JsNum.fin 71 := rfl
example : motionBarsBases defaultBarValues =
    [JsNum.fin (mkRat 38 71), JsNum.fin (mkRat 52 71), JsNum.fin (mkRat 24 71),
     JsNum.fin 1, JsNum.fin (mkRat 43 71), JsNum.fin (mkRat 66 71)] := rfl
example : motionBarsBases [Json.str "Infinity"] = [JsNum.nan] := rfl
example : motionBarHeight JsNum.nan = JsNum.nan := rfl
example : coerceNumOr0 (Json.str "abc") = JsNum.fin 0 := rfl
example : coerceNumOr0 (Json.str " 12.5 ") = JsNum.fin (mkRat 25 2) := rfl
example : jsStrToNumber "0x10" = JsNum.fin 16 := rfl
example : motionBarHeight (JsNum.fin (mkRat 24 71)) = JsNum.fin (mkRat 2400 71) := rfl
example :
    (gridScreenRender [] (parseProps (some "\x7b\"items\":5\x7d"))
      (resolveTheme (fun _ => "")) (resolveTheme (fun _ => ""))).isOk = false := rfl
example :
    (titleSlideRender [] (parseProps (some "null")) (resolveTheme (fun _ => ""))).isOk = false := rfl
example :
    (gridScreenRender [] (parseProps (some "\x7b\"items\":[\x7b\"title\":\"A\"\x7d]\x7d"))
      (resolveTheme (fun _ => "")) (resolveTheme (fun _ => ""))).isOk = true := rfl
example : (mbRun (fun _ => 0) [MBEvent.connect (Json.obj []), MBEvent.disconnect]).rootListeners = [0] := rfl
example :
    ((mbRun (fun _ => 0)
      [MBEvent.connect (Json.obj []), MBEvent.timelineTick 1, MBEvent.disconnect,
       MBEvent.timelineTick 2]).comp.barNodes.map MBar.writes) = [2, 2, 2, 2, 2, 2] := rfl
example :
    registerFallbackComponents [] ["VML", "MY-WIDGET", "DIV", "MY-WIDGET"] =
      ([("my-widget", CompImpl.fallbackImpl)], none) := rfl
example :
    ceDefine [("my-widget", CompImpl.fallbackImpl)] "other-widget" CompImpl.fallbackImpl =
      Except.error "NotSupportedError: the constructor has already been used with this registry" :=
  rfl
example :
    fallbackConnected "MY-WIDGET" [] =
      [Node.el "div" "<my-widget>" fallbackLabelStyle []] := rfl

/-! Helper lemmas shared by the claim theorems. -/

theorem clearChildren_eq_nil (cs : List Node) : clearChildren cs = [] := by
  induction cs with
  | nil => rfl
  | cons c rest ih => simpa [clearChildren] using ih

theorem ratMax_eq (a b : ℚ) : ratMax a b = max a b := by
  by_cases h : a < b
  · simp [ratMax, h, max_eq_right h.le]
  · simp [ratMax, h, max_eq_left (not_lt.mp h)]

theorem ratMul_eq (a b : ℚ) : ratMul a b = a * b := by
  unfold ratMul
  rw [Rat.mkRat_eq_div]
  push_cast
  conv_rhs => rw [← Rat.num_div_den a, ← Rat.num_div_den b]
  rw [div_mul_div_comm]

theorem mkRat_one_ten : (mkRat 1 10 : ℚ) = 1 / 10 := by
  rw [Rat.mkRat_eq_div]
  norm_num

/-! The claim theorems. -/

/-- C3, counterexample: decode does not always yield a key/value object
or the empty bag; the input 5 decodes to the JSON number five, which is
not an object at all. -/
theorem parseProps_nonobject_counterexample :
    parseProps (some "5") = Json.num 5 ∧
    (parseProps (some "5")).isObj = false ∧
    ¬ ∀ v : Option String, (parseProps v).isObj = true := by
  refine ⟨rfl, rfl, fun h => ?_⟩
  have h5 := h (some "5")
  rw [show parseProps (some "5") = Json.num 5 from rfl] at h5
  simp [Json.isObj] at h5

/-- C3 (amended): decode never yields a partially valid result; its
return value is either the full successfully parsed JSON value of the
input, which is a key/value object whenever the input encodes one but
can be any JSON value, or the empty bag. -/
theorem parseProps_parsed_or_empty_bag (v : Option String) :
    (∃ s, v = some s ∧ jsonParse s = some (parseProps v)) ∨ parseProps v = Json.obj [] := by
  match v with
  | none => exact Or.inr rfl
  | some s =>
    by_cases hs : s = ""
    · exact Or.inr (by simp [parseProps, hs])
    · cases hj : jsonParse s with
      | none => exact Or.inr (by simp [parseProps, hs, hj])
      | some j => exact Or.inl ⟨s, rfl, by simp [parseProps, hs, hj]⟩

/-- C4: for an absent or empty serialized prop string, and for every
string the JSON parse rejects, decode returns the empty bag; decode is a
total function, so no error reaches its caller. -/
theorem parseProps_empty_bag_on_bad_input :
    parseProps none = Json.obj [] ∧
    parseProps (some "") = Json.obj [] ∧
    ∀ s : String, jsonParse s = none → parseProps (some s) = Json.obj [] := by
  refine ⟨rfl, rfl, fun s h => ?_⟩
  by_cases hs : s = ""
  · simp [parseProps, hs]
  · simp [parseProps, hs, h]

/-- Witness for C4 at a concrete malformed input: an unclosed brace is
rejected by the parse and decodes to the empty bag. -/
theorem parseProps_empty_bag_witness :
    jsonParse "\x7b" = none ∧ parseProps (some "\x7b") = Json.obj [] :=
  ⟨rfl, parseProps_empty_bag_on_bad_input.2.2 "\x7b" rfl⟩

/-- C5: theme resolution is a total function and populates all six
slots for every scope: a slot whose token trims to a non-empty string
is formatted as hsl of the trimmed value, a slot whose token is absent
or trims to nothing receives its per-slot brand default, and the six
defaults are pairwise distinct. -/
theorem resolveTheme_populates_every_slot (scope : CssScope) :
    ((strTrim (scope "--background") ≠ "" →
        (resolveTheme scope).background = "hsl(" ++ strTrim (scope "--background") ++ ")") ∧
      (strTrim (scope "--background") = "" → (resolveTheme scope).background = notBlack)) ∧
    ((strTrim (scope "--card") ≠ "" →
        (resolveTheme scope).surface = "hsl(" ++ strTrim (scope "--card") ++ ")") ∧
      (strTrim (scope "--card") = "" → (resolveTheme scope).surface = surfaceDefault)) ∧
    ((strTrim (scope "--foreground") ≠ "" →
        (resolveTheme scope).text = "hsl(" ++ strTrim (scope "--foreground") ++ ")") ∧
      (strTrim (scope "--foreground") = "" → (resolveTheme scope).text = notWhite)) ∧
    ((strTrim (scope "--muted-foreground") ≠ "" →
        (resolveTheme scope).muted = "hsl(" ++ strTrim (scope "--muted-foreground") ++ ")") ∧
      (strTrim (scope "--muted-foreground") = "" → (resolveTheme scope).muted = brandMuted)) ∧
    ((strTrim (scope "--primary") ≠ "" →
        (resolveTheme scope).accent = "hsl(" ++ strTrim (scope "--primary") ++ ")") ∧
      (strTrim (scope "--primary") = "" → (resolveTheme scope).accent = brandAccent)) ∧
    ((strTrim (scope "--recess") ≠ "" →
        (resolveTheme scope).recess = "hsl(" ++ strTrim (scope "--recess") ++ ")") ∧
      (strTrim (scope "--recess") = "" → (resolveTheme scope).recess = recessDefault)) ∧
    List.Pairwise (fun a b => a ≠ b)
      [notBlack, surfaceDefault, notWhite, brandMuted, brandAccent, recessDefault] := by
  refine ⟨⟨?_, ?_⟩, ⟨?_, ?_⟩, ⟨?_, ?_⟩, ⟨?_, ?_⟩, ⟨?_, ?_⟩, ⟨?_, ?_⟩, ?_⟩ <;>
    first
      | (intro h; simp [resolveTheme, readCssVar, themeFormat, h])
      | decide

/-- Witness for C5: every present-token branch at a scope carrying one
token value, and every absent-token branch at the all-empty scope. -/
theorem resolveTheme_populates_witness :
    (resolveTheme (fun _ => " 222 14% 7% ")).background = "hsl(222 14% 7%)" ∧
    (resolveTheme (fun _ => " 222 14% 7% ")).surface = "hsl(222 14% 7%)" ∧
    (resolveTheme (fun _ => " 222 14% 7% ")).text = "hsl(222 14% 7%)" ∧
    (resolveTheme (fun _ => " 222 14% 7% ")).muted = "hsl(222 14% 7%)" ∧
    (resolveTheme (fun _ => " 222 14% 7% ")).accent = "hsl(222 14% 7%)" ∧
    (resolveTheme (fun _ => " 222 14% 7% ")).recess = "hsl(222 14% 7%)" ∧
    (resolveTheme (fun _ => "")).background = notBlack ∧
    (resolveTheme (fun _ => "")).surface = surfaceDefault ∧
    (resolveTheme (fun _ => "")).text = notWhite ∧
    (resolveTheme (fun _ => "")).muted = brandMuted ∧
    (resolveTheme (fun _ => "")).accent = brandAccent ∧
    (resolveTheme (fun _ => "")).recess = recessDefault := by
  have hp := resolveTheme_populates_every_slot (fun _ => " 222 14% 7% ")
  have ha := resolveTheme_populates_every_slot (fun _ => "")
  exact ⟨hp.1.1 (by decide), hp.2.1.1 (by decide), hp.2.2.1.1 (by decide),
    hp.2.2.2.1.1 (by decide), hp.2.2.2.2.1.1 (by decide), hp.2.2.2.2.2.1.1 (by decide),
    ha.1.2 (by decide), ha.2.1.2 (by decide), ha.2.2.1.2 (by decide),
    ha.2.2.2.1.2 (by decide), ha.2.2.2.2.1.2 (by decide), ha.2.2.2.2.2.1.2 (by decide)⟩

theorem renderChildren_indep (b : Except String Node) (cs cs' : List Node) :
    renderChildren b cs = renderChildren b cs' := by
  cases b <;> simp [renderChildren, clearChildren_eq_nil]

theorem renderChildren_idem (b : Except String Node) (cs : List Node) :
    renderChildren b (renderChildren b cs) = renderChildren b cs := by
  cases b <;> simp [renderChildren, clearChildren_eq_nil]

/-- C6: re-render is idempotent and ignores the existing children for
every render step of the catalog, because clear empties the child list
before the subtree is rebuilt and the rebuilt subtree depends only on
the decoded props and the resolved themes: rendering from any two
starting child lists gives the same result, and rendering the result
again reproduces it exactly. Stated for all eighteen renderers; the
demo placeholder and the fallback have no render step, only a
first-attach callback. -/
theorem rerender_idempotent_and_clears (cs cs' : List Node) (p : Json) (t dt : Theme) :
    (titleSlideChildren cs p t = titleSlideChildren cs' p t ∧
      titleSlideChildren (titleSlideChildren cs p t) p t = titleSlideChildren cs p t) ∧
    (bulletListChildren cs p t = bulletListChildren cs' p t ∧
      bulletListChildren (bulletListChildren cs p t) p t = bulletListChildren cs p t) ∧
    (motionBarsChildren cs p t = motionBarsChildren cs' p t ∧
      motionBarsChildren (motionBarsChildren cs p t) p t = motionBarsChildren cs p t) ∧
    (twoColumnChildren cs p t = twoColumnChildren cs' p t ∧
      twoColumnChildren (twoColumnChildren cs p t) p t = twoColumnChildren cs p t) ∧
    (chapterHeadingChildren cs p t = chapterHeadingChildren cs' p t ∧
      chapterHeadingChildren (chapterHeadingChildren cs p t) p t = chapterHeadingChildren cs p t) ∧
    (videoTitleChildren cs p t = videoTitleChildren cs' p t ∧
      videoTitleChildren (videoTitleChildren cs p t) p t = videoTitleChildren cs p t) ∧
    (videoSubtitleChildren cs p t = videoSubtitleChildren cs' p t ∧
      videoSubtitleChildren (videoSubtitleChildren cs p t) p t = videoSubtitleChildren cs p t) ∧
    (videoRectangleChildren cs p t = videoRectangleChildren cs' p t ∧
      videoRectangleChildren (videoRectangleChildren cs p t) p t = videoRectangleChildren cs p t) ∧
    (backgroundChildren cs p t = backgroundChildren cs' p t ∧
      backgroundChildren (backgroundChildren cs p t) p t = backgroundChildren cs p t) ∧
    (progressBarChildren cs p t = progressBarChildren cs' p t ∧
      progressBarChildren (progressBarChildren cs p t) p t = progressBarChildren cs p t) ∧
    (quoteCardChildren cs p t dt = quoteCardChildren cs' p t dt ∧
      quoteCardChildren (quoteCardChildren cs p t dt) p t dt = quoteCardChildren cs p t dt) ∧
    (lowerThirdChildren cs p t dt = lowerThirdChildren cs' p t dt ∧
      lowerThirdChildren (lowerThirdChildren cs p t dt) p t dt = lowerThirdChildren cs p t dt) ∧
    (calloutChildren cs p t dt = calloutChildren cs' p t dt ∧
      calloutChildren (calloutChildren cs p t dt) p t dt = calloutChildren cs p t dt) ∧
    (chyronChildren cs p t dt = chyronChildren cs' p t dt ∧
      chyronChildren (chyronChildren cs p t dt) p t dt = chyronChildren cs p t dt) ∧
    (codeBlockChildren cs p t = codeBlockChildren cs' p t ∧
      codeBlockChildren (codeBlockChildren cs p t) p t = codeBlockChildren cs p t) ∧
    (contentScreenChildren cs p t = contentScreenChildren cs' p t ∧
      contentScreenChildren (contentScreenChildren cs p t) p t = contentScreenChildren cs p t) ∧
    (gridScreenChildren cs p t dt = gridScreenChildren cs' p t dt ∧
      gridScreenChildren (gridScreenChildren cs p t dt) p t dt = gridScreenChildren cs p t dt) ∧
    (threeColumnChildren cs p t dt = threeColumnChildren cs' p t dt ∧
      threeColumnChildren (threeColumnChildren cs p t dt) p t dt = threeColumnChildren cs p t dt) := by
  refine ⟨⟨?_, ?_⟩, ⟨?_, ?_⟩, ⟨?_, ?_⟩, ⟨?_, ?_⟩, ⟨?_, ?_⟩, ⟨?_, ?_⟩, ⟨?_, ?_⟩, ⟨?_, ?_⟩,
    ⟨?_, ?_⟩, ⟨?_, ?_⟩, ⟨?_, ?_⟩, ⟨?_, ?_⟩, ⟨?_, ?_⟩, ⟨?_, ?_⟩, ⟨?_, ?_⟩, ⟨?_, ?_⟩,
    ⟨?_, ?_⟩, ⟨?_, ?_⟩⟩ <;>
    first
      | exact renderChildren_indep _ cs cs'
      | exact renderChildren_idem _ cs

theorem mbBind_inv (s : MBSys) (h : mbInv s) : mbInv (mbBind s) := by
  by_cases ha : s.comp.attached = true
  · refine Or.inr ⟨s.fresh, ?_, Or.inr ?_⟩
    · simp [mbBind, mbClosestRoot, ha]
    · rcases h with hl | ⟨h0, hth, hl⟩
      · cases hth : s.comp.tickHandler <;>
          simp [mbBind, mbClosestRoot, ha, hth, hl]
      · rcases hl with hl | hl <;>
          simp [mbBind, mbClosestRoot, ha, hth, hl]
  · have hb : mbBind s = s := by
      simp [mbBind, mbClosestRoot, ha]
    rw [hb]; exact h

theorem mbInv_parts (s s' : MBSys) (hth : s'.comp.tickHandler = s.comp.tickHandler)
    (hL : s'.rootListeners = s.rootListeners) (h : mbInv s) : mbInv s' := by
  rcases h with hl | ⟨h0, hth0, hl⟩
  · exact Or.inl (hL.trans hl)
  · exact Or.inr ⟨h0, hth.trans hth0, by rw [hL]; exact hl⟩

theorem mbTickFold_fields (sinQ : ℚ → ℚ) (time : ℚ) (l : List Nat) (s : MBSys) :
    (l.foldl (fun acc _ =>
        { acc with comp := { acc.comp with barNodes := tickMapBars sinQ time 0 acc.comp.barNodes } })
      s).comp.tickHandler = s.comp.tickHandler ∧
    (l.foldl (fun acc _ =>
        { acc with comp := { acc.comp with barNodes := tickMapBars sinQ time 0 acc.comp.barNodes } })
      s).rootListeners = s.rootListeners := by
  induction l generalizing s with
  | nil => exact ⟨rfl, rfl⟩
  | cons x rest ih =>
    simp only [List.foldl_cons]
    exact ih _

theorem mbStep_inv (sinQ : ℚ → ℚ) (e : MBEvent) (s : MBSys) (h : mbInv s) :
    mbInv (mbStep sinQ e s) := by
  cases e with
  | connect props =>
    cases hr : motionBarsRenderBars props with
    | ok bars =>
      have hstep : mbStep sinQ (MBEvent.connect props) s =
          mbBind { s with comp := { s.comp with attached := true, barNodes := bars } } := by
        simp [mbStep, hr]
      rw [hstep]
      exact mbBind_inv _ (mbInv_parts s _ rfl rfl h)
    | error e =>
      have hstep : mbStep sinQ (MBEvent.connect props) s =
          { s with comp := { s.comp with attached := true } } := by
        simp [mbStep, hr]
      rw [hstep]
      exact mbInv_parts s _ rfl rfl h
  | disconnect =>
    have hstep : mbStep sinQ MBEvent.disconnect s =
        { s with comp := { s.comp with attached := false } } := by
      simp [mbStep, mbClosestRoot]
    rw [hstep]
    exact mbInv_parts s _ rfl rfl h
  | attrChange props =>
    cases hr : motionBarsRenderBars props with
    | ok bars =>
      have hstep : mbStep sinQ (MBEvent.attrChange props) s =
          { s with comp := { s.comp with barNodes := bars } } := by
        simp [mbStep, hr]
      rw [hstep]
      exact mbInv_parts s _ rfl rfl h
    | error e =>
      have hstep : mbStep sinQ (MBEvent.attrChange props) s = s := by
        simp [mbStep, hr]
      rw [hstep]; exact h
  | timelineTick time =>
    have hf := mbTickFold_fields sinQ time s.rootListeners s
    exact mbInv_parts s _ hf.1 hf.2 h

theorem mbRun_inv (sinQ : ℚ → ℚ) (evs : List MBEvent) : mbInv (mbRun sinQ evs) := by
  have h : ∀ s, mbInv s → mbInv (evs.foldl (fun s e => mbStep sinQ e s) s) := by
    induction evs with
    | nil => exact fun s hs => hs
    | cons e rest ih =>
      intro s hs
      simp only [List.foldl_cons]
      exact ih _ (mbStep_inv sinQ e s hs)
  exact h mbInit (Or.inl rfl)

/-- Single-root contrast to the subscription claim: in a document with
one presentation root an instance holds at most one registered tick
listener after every event sequence, and a re-render triggered by a
prop change leaves both the stored handler and the listener list of the
root untouched. The multi-root document breaks the at-most-one bound,
as the claim theorem below shows. -/
theorem motionBars_at_most_one_subscription (sinQ : ℚ → ℚ) (evs : List MBEvent)
    (p : Json) (s : MBSys) :
    (mbRun sinQ evs).rootListeners.length ≤ 1 ∧
    (mbStep sinQ (MBEvent.attrChange p) s).comp.tickHandler = s.comp.tickHandler ∧
    (mbStep sinQ (MBEvent.attrChange p) s).rootListeners = s.rootListeners := by
  refine ⟨?_, ?_, ?_⟩
  · rcases mbRun_inv sinQ evs with hl | ⟨h0, _, hl | hl⟩ <;> simp [hl]
  · cases hr : motionBarsRenderBars p <;> simp [mbStep, hr]
  · cases hr : motionBarsRenderBars p <;> simp [mbStep, hr]

/-- C1, evaluated at the failing scenario: the instance attaches under
the root with its default props, receives a tick, and is detached.
Detachment runs disconnectedCallback only after the node is removed, so
its closest lookup finds no presentation root and the stored listener
stays registered on the root; the next tick broadcast then still runs
the handler, assigning every removed bar node one more transform write.
The claim of zero mutation after detach is therefore violated by the
code. -/
theorem motionBars_detached_keeps_ticking (sinQ : ℚ → ℚ) (t1 t2 : ℚ) :
    (mbRun sinQ [MBEvent.connect (Json.obj []), MBEvent.timelineTick t1,
      MBEvent.disconnect]).comp.attached = false ∧
    (mbRun sinQ [MBEvent.connect (Json.obj []), MBEvent.timelineTick t1,
      MBEvent.disconnect]).rootListeners = [0] ∧
    ((mbStep sinQ (MBEvent.timelineTick t2)
        (mbRun sinQ [MBEvent.connect (Json.obj []), MBEvent.timelineTick t1,
          MBEvent.disconnect])).comp.barNodes.map MBar.writes) =
      ((mbRun sinQ [MBEvent.connect (Json.obj []), MBEvent.timelineTick t1,
        MBEvent.disconnect]).comp.barNodes.map MBar.writes).map (fun w => w + 1) :=
  ⟨rfl, rfl, rfl⟩

/-- C7, evaluated at the failing scenario: the instance attaches under
root zero, is detached, and is re-attached under root one. The detach
cleanup fails as in C1, leaving the old listener on root zero, and the
re-attachment removes the stored handler only from root one, where it
was never registered, before registering a fresh one there. The
instance then holds two active tick subscriptions at once: each root
carries one listener and a tick broadcast on either root still mutates
the bars. The claimed at-most-one invariant is therefore violated by
the code. -/
theorem motionBars_two_roots_two_subscriptions (sinQ : ℚ → ℚ) (t t2 : ℚ) :
    (mb2Run sinQ [MB2Event.connect 0 (Json.obj []), MB2Event.disconnect,
      MB2Event.connect 1 (Json.obj [])]).roots 0 = [0] ∧
    (mb2Run sinQ [MB2Event.connect 0 (Json.obj []), MB2Event.disconnect,
      MB2Event.connect 1 (Json.obj [])]).roots 1 = [1] ∧
    ((mb2Run sinQ [MB2Event.connect 0 (Json.obj []), MB2Event.disconnect,
        MB2Event.connect 1 (Json.obj [])]).roots 0).length +
      ((mb2Run sinQ [MB2Event.connect 0 (Json.obj []), MB2Event.disconnect,
        MB2Event.connect 1 (Json.obj [])]).roots 1).length = 2 ∧
    ((mb2Step sinQ (MB2Event.timelineTick 0 t)
        (mb2Run sinQ [MB2Event.connect 0 (Json.obj []), MB2Event.disconnect,
          MB2Event.connect 1 (Json.obj [])])).comp.barNodes.map MBar.writes) =
      ((mb2Run sinQ [MB2Event.connect 0 (Json.obj []), MB2Event.disconnect,
        MB2Event.connect 1 (Json.obj [])]).comp.barNodes.map MBar.writes).map
        (fun w => w + 1) ∧
    ((mb2Step sinQ (MB2Event.timelineTick 1 t2)
        (mb2Run sinQ [MB2Event.connect 0 (Json.obj []), MB2Event.disconnect,
          MB2Event.connect 1 (Json.obj [])])).comp.barNodes.map MBar.writes) =
      ((mb2Run sinQ [MB2Event.connect 0 (Json.obj []), MB2Event.disconnect,
        MB2Event.connect 1 (Json.obj [])]).comp.barNodes.map MBar.writes).map
        (fun w => w + 1) :=
  ⟨rfl, rfl, rfl, rfl, rfl⟩

/-- C9, evaluated at the failing scenarios: with exactly one unknown
hyphenated tag the scan registers it once and a re-scan is a no-op,
but with two unknown tags the second customElements.define call throws
NotSupportedError, because the one shared FallbackElement constructor
is already registered for the first tag; the second tag stays
unregistered, the exception escapes the scan, and every re-scan throws
again without registering it. The label behavior of an attached
fallback instance is as the claim describes. -/
theorem fallback_scan_throws_on_second_tag :
    registerFallbackComponents [] ["MY-WIDGET-A"] =
      ([("my-widget-a", CompImpl.fallbackImpl)], none) ∧
    registerFallbackComponents [("my-widget-a", CompImpl.fallbackImpl)] ["MY-WIDGET-A"] =
      ([("my-widget-a", CompImpl.fallbackImpl)], none) ∧
    regCount [("my-widget-a", CompImpl.fallbackImpl)] "my-widget-a" = 1 ∧
    (registerFallbackComponents [] ["MY-WIDGET-A", "MY-WIDGET-B"]).1 =
      [("my-widget-a", CompImpl.fallbackImpl)] ∧
    (registerFallbackComponents [] ["MY-WIDGET-A", "MY-WIDGET-B"]).2 =
      some "NotSupportedError: the constructor has already been used with this registry" ∧
    regGet (registerFallbackComponents [] ["MY-WIDGET-A", "MY-WIDGET-B"]).1 "my-widget-b" =
      none ∧
    (registerFallbackComponents
        (registerFallbackComponents [] ["MY-WIDGET-A", "MY-WIDGET-B"]).1
        ["MY-WIDGET-A", "MY-WIDGET-B"]).2 =
      some "NotSupportedError: the constructor has already been used with this registry" ∧
    fallbackConnected "MY-WIDGET-A" [] =
      [Node.el "div" "<my-widget-a>" fallbackLabelStyle []] ∧
    fallbackConnected "MY-WIDGET-A" (fallbackConnected "MY-WIDGET-A" []) =
      fallbackConnected "MY-WIDGET-A" [] :=
  ⟨rfl, rfl, rfl, rfl, rfl, rfl, rfl, rfl, rfl⟩

/-- C2, evaluated at failing inputs: the grid screen render throws a
TypeError out of the render step when the decoded items prop is the
number five, because the for-of iteration rejects it, and the title
slide render throws when the prop attribute decodes to null, because
the first property read rejects null. The render step therefore does
not complete for every payload. -/
theorem render_step_throws_counterexample (th dth : Theme) :
    (gridScreenRender [] (parseProps (some "\x7b\"items\":5\x7d")) th dth).isOk = false ∧
    (titleSlideRender [] (parseProps (some "null")) th).isOk = false :=
  ⟨rfl, rfl⟩

/-- C8: with the default values sequence and no values prop supplied,
the bar chart divides by exactly 71, the tallest bar stores base
proportion exactly one, and every other bar stores exactly its value
divided by 71, in exact rational arithmetic. -/
theorem motionBars_default_proportions :
    motionBarsValues JsVal.undefined = defaultBarValues ∧
    motionBarsMax defaultBarValues = JsNum.fin 71 ∧
    motionBarsBases defaultBarValues =
      [JsNum.fin (38 / 71), JsNum.fin (52 / 71), JsNum.fin (24 / 71),
       JsNum.fin 1, JsNum.fin (43 / 71), JsNum.fin (66 / 71)] := by
  refine ⟨rfl, rfl, ?_⟩
  have h : motionBarsBases defaultBarValues =
      [JsNum.fin (mkRat 38 71), JsNum.fin (mkRat 52 71), JsNum.fin (mkRat 24 71),
       JsNum.fin 1, JsNum.fin (mkRat 43 71), JsNum.fin (mkRat 66 71)] := rfl
  rw [h]
  norm_num [Rat.mkRat_eq_div]

theorem foldl_jsMax_fin (l : List JsNum) (q0 : ℚ) (hfin : ∀ x ∈ l, x.isFinite = true) :
    ∃ q : ℚ, l.foldl jsMax (JsNum.fin q0) = JsNum.fin q ∧ q0 ≤ q ∧
      ∀ qx : ℚ, JsNum.fin qx ∈ l → qx ≤ q := by
  induction l generalizing q0 with
  | nil => exact ⟨q0, rfl, le_refl _, fun qx hqx => absurd hqx (List.not_mem_nil _)⟩
  | cons x rest ih =>
    cases x with
    | fin qx =>
      obtain ⟨q, hfold, hq0, hall⟩ :=
        ih (ratMax q0 qx) (fun y hy => hfin y (List.mem_cons_of_mem _ hy))
      refine ⟨q, ?_, ?_, ?_⟩
      · rw [List.foldl_cons,
          show jsMax (JsNum.fin q0) (JsNum.fin qx) = JsNum.fin (ratMax q0 qx) from rfl]
        exact hfold
      · exact le_trans (by rw [ratMax_eq]; exact le_max_left _ _) hq0
      · intro qy hqy
        rcases List.mem_cons.mp hqy with heq | hmem
        · have hyx : qy = qx := by injection heq
          subst hyx
          exact le_trans (by rw [ratMax_eq]; exact le_max_right _ _) hq0
        · exact hall qy hmem
    | inf p =>
      have := hfin _ (List.mem_cons_self _ _)
      simp [JsNum.isFinite] at this
    | nan =>
      have := hfin _ (List.mem_cons_self _ _)
      simp [JsNum.isFinite] at this

theorem motionBarsMax_fin (values : List Json)
    (hfin : ∀ v ∈ values, (coerceNumOr0 v).isFinite = true) :
    ∃ q : ℚ, motionBarsMax values = JsNum.fin q ∧ 1 ≤ q := by
  have hlfin : ∀ x ∈ values.map coerceNumOr0 ++ [JsNum.fin 1], x.isFinite = true := by
    intro x hx
    rcases List.mem_append.mp hx with hx | hx
    · obtain ⟨v, hv, rfl⟩ := List.mem_map.mp hx
      exact hfin v hv
    · rw [List.mem_singleton.mp hx]; rfl
  cases hl : values.map coerceNumOr0 ++ [JsNum.fin 1] with
  | nil => exact absurd hl (by simp)
  | cons x xs =>
    have hxfin : x.isFinite = true := hlfin x (hl ▸ List.mem_cons_self _ _)
    cases x with
    | fin qx =>
      obtain ⟨q, hfold, hq0, hall⟩ :=
        foldl_jsMax_fin xs qx (fun y hy => hlfin y (hl ▸ List.mem_cons_of_mem _ hy))
      refine ⟨q, ?_, ?_⟩
      · rw [show motionBarsMax values =
            (values.map coerceNumOr0 ++ [JsNum.fin 1]).foldl jsMax (JsNum.inf false) from rfl,
          hl, List.foldl_cons,
          show jsMax (JsNum.inf false) (JsNum.fin qx) = JsNum.fin qx from rfl]
        exact hfold
      · have hone : JsNum.fin 1 ∈ JsNum.fin qx :: xs :=
          hl ▸ List.mem_append_right _ (List.mem_singleton_self _)
        rcases List.mem_cons.mp hone with heq | hmem
        · have h1 : (1 : ℚ) = qx := by injection heq
          exact h1 ▸ hq0
        · exact hall 1 hmem
    | inf p => simp [JsNum.isFinite] at hxfin
    | nan => simp [JsNum.isFinite] at hxfin

/-- C10, counterexample: the coercion of the string Infinity survives
the or-zero fallback as positive infinity, the divisor becomes positive
infinity, the base proportion becomes NaN, which is not a finite
number, and the initial height becomes NaN rather than a value of at
least ten percent. -/
theorem motionBars_infinity_counterexample :
    motionBarsBases [Json.str "Infinity"] = [JsNum.nan] ∧
    JsNum.nan.isFinite = false ∧
    motionBarHeight JsNum.nan = JsNum.nan ∧
    ¬ ∀ values : List Json, ∀ b ∈ motionBarsBases values, b.isFinite = true := by
  refine ⟨rfl, rfl, rfl, fun h => ?_⟩
  have hb := h [Json.str "Infinity"] JsNum.nan
    (by rw [show motionBarsBases [Json.str "Infinity"] = [JsNum.nan] from rfl]
        exact List.mem_singleton_self _)
  simp [JsNum.isFinite] at hb

/-- C10 (amended): for every values sequence whose entries coerce to
finite numbers, which excludes only entries coercing to an infinity
such as the string Infinity, the divisor is a finite rational of at
least one, every base proportion is a finite rational, and every bar
is laid out with an initial height of at least ten percent. -/
theorem motionBars_safe_on_finite_values (values : List Json)
    (hfin : ∀ v ∈ values, (coerceNumOr0 v).isFinite = true) :
    (∃ q : ℚ, motionBarsMax values = JsNum.fin q ∧ 1 ≤ q) ∧
    (∀ b ∈ motionBarsBases values, b.isFinite = true) ∧
    (∀ b ∈ motionBarsBases values, ∃ hq : ℚ, motionBarHeight b = JsNum.fin hq ∧ 10 ≤ hq) := by
  obtain ⟨q, hmax, hq1⟩ := motionBarsMax_fin values hfin
  have hq0 : ¬ q = 0 := (lt_of_lt_of_le zero_lt_one hq1).ne'
  have hbase : ∀ b ∈ motionBarsBases values, ∃ c : ℚ, b = JsNum.fin c := by
    intro b hb
    obtain ⟨v, hv, rfl⟩ := List.mem_map.mp hb
    have hvfin := hfin v hv
    cases hc : coerceNumOr0 v with
    | fin c =>
      rw [hmax]
      exact ⟨ratDiv c q, by simp [jsDiv, hq0]⟩
    | inf p => rw [hc] at hvfin; simp [JsNum.isFinite] at hvfin
    | nan => rw [hc] at hvfin; simp [JsNum.isFinite] at hvfin
  refine ⟨⟨q, hmax, hq1⟩, ?_, ?_⟩
  · intro b hb
    obtain ⟨c, rfl⟩ := hbase b hb
    rfl
  · intro b hb
    obtain ⟨c, rfl⟩ := hbase b hb
    refine ⟨ratMul (ratMax (mkRat 1 10) c) 100, rfl, ?_⟩
    rw [ratMul_eq, ratMax_eq, mkRat_one_ten]
    have h1 : (1 / 10 : ℚ) ≤ max (1 / 10) c := le_max_left _ _
    nlinarith [h1]

/-- Witness for C10 at a concrete sequence holding one numeric entry
and one non-numeric string entry, which coerces to zero. -/
theorem motionBars_safe_witness :
    (∃ q : ℚ, motionBarsMax [Json.num 5, Json.str "abc"] = JsNum.fin q ∧ 1 ≤ q) ∧
    (∀ b ∈ motionBarsBases [Json.num 5, Json.str "abc"], b.isFinite = true) ∧
    (∀ b ∈ motionBarsBases [Json.num 5, Json.str "abc"],
      ∃ hq : ℚ, motionBarHeight b = JsNum.fin hq ∧ 10 ≤ hq) :=
  motionBars_safe_on_finite_values [Json.num 5, Json.str "abc"] (by decide)

end VideoML
